import Mathlib

/-
Verification development for the SlimProto client controller of
application/squeezetiny/slimproto.c. The controller state, the opcode
handlers, the status ticker and the receive pump are shallowly embedded as
executable Lean functions; external collaborators (stream reader, codec,
output, mime-type registry, bridge callback) are parameters supplied
through an environment record, and their invocations are recorded as
explicit actions in the order the C code performs them.
-/

namespace Slim

/-- Maximum slimproto control frame size accepted by the receive pump
(macro MAXBUF in slimproto.c, value 4096). -/
def MAXBUF : Nat := 4096

/-- Modelled from the spec: MAX_HEADER bounds the HTTP request header carried
by a strm-s packet. The macro is declared in a header outside the provided
source; only the comparison with header_len matters to the handler, and the
upstream default value 4096 is used. -/
def MAX_HEADER : Nat := 4096

/-- Modelled from the spec: STREAM_DELAY is declared outside the provided
source. The spec describes the STMd gate as waiting until close to the end
of the track so that roughly 30-second source-side idle timeouts are not
hit, so it is modelled as 30000 ms. -/
def STREAM_DELAY : Nat := 30000

/-- Modelled from the spec: the configuration string capacity _STR_LEN_ is
declared outside the provided source; modelled with the common value 256. -/
def STR_LEN : Nat := 256

/-- Unsigned 32-bit subtraction as computed by the C code on u32 values. -/
def u32sub (a b : Nat) : Nat := (a + (4294967296 - b % 4294967296)) % 4294967296

/-- Stream reader states. The numeric order matches the C enum declaration
(STOPPED and DISCONNECT first), which the status ticker relies on through
the comparison stream_state <= DISCONNECT. -/
inductive StreamState
  | STOPPED
  | DISCONNECT
  | STREAMING_WAIT
  | STREAMING_BUFFERING
  | STREAMING_FILE
  | STREAMING_HTTP
  deriving DecidableEq, Repr

/-- Numeric value of a stream state, mirroring the C enum encoding. -/
def StreamState.toNat : StreamState → Nat
  | .STOPPED => 0
  | .DISCONNECT => 1
  | .STREAMING_WAIT => 2
  | .STREAMING_BUFFERING => 3
  | .STREAMING_FILE => 4
  | .STREAMING_HTTP => 5

/-- Disconnect codes carried by DSCO; only equality with DISCONNECT_OK is
used by the controller. -/
inductive DisconnectCode
  | DISCONNECT_OK
  | LOCAL_DISCONNECT
  | REMOTE_DISCONNECT
  | UNREACHABLE
  | TIMEOUT
  deriving DecidableEq, Repr

/-- Decoder states. -/
inductive DecodeState
  | STOPPED
  | READY
  | RUNNING
  | COMPLETE
  | ERROR
  deriving DecidableEq, Repr

/-- Output (renderer) states. -/
inductive OutputState
  | STOPPED
  | WAITING
  | RUNNING
  deriving DecidableEq, Repr

/-- Rendering progress states; the controller only tests equality with
RD_STOPPED. -/
inductive RenderState
  | RD_STOPPED
  | RD_PLAYING
  | RD_PAUSED
  deriving DecidableEq, Repr

/-- Re-encoding modes parsed from the configuration mode string. -/
inductive EncodeMode
  | PCM
  | FLAC
  | MP3
  | THRU
  deriving DecidableEq, Repr

/-- 24-bit handling configuration. -/
inductive L24Mode
  | L24_TRUNC16
  | L24_TRUNC16_PCM
  | L24_PASS
  deriving DecidableEq, Repr

/-- Bridge callback actions (sq_action_t). SQ_VOLUME carries the computed
gain. -/
inductive SqAction
  | SQ_STOP
  | SQ_PAUSE
  | SQ_UNPAUSE
  | SQ_ONOFF
  | SQ_VOLUME (gain : Nat)
  | SQ_SETNAME
  | SQ_SETSERVER
  | SQ_PLAY
  | SQ_SET_TRACK
  deriving DecidableEq, Repr

/-- STAT event codes sent by the controller (the 4-byte event field). -/
inductive StatEvent
  | STMt
  | STMf
  | STMp
  | STMr
  | STMc
  | STMn
  | STMs
  | STMl
  | STMd
  | STMu
  | STMo
  deriving DecidableEq, Repr

/-- Observable actions of the controller: wire sends, collaborator
invocations, and lock operations, recorded in program order. -/
inductive Action
  | sendSTAT (event : StatEvent) (server_timestamp : Nat)
  | sendDSCO (code : DisconnectCode)
  | sendRESP (header : List Nat)
  | sendMETA (meta : List Nat)
  | sendSETD (name : List Nat)
  | callback (a : SqAction)
  | streamSock (ip : Nat) (port : Nat) (header : List Nat) (threshold : Nat) (cont_on_error : Bool)
  | streamDisconnect
  | decodeFlush
  | outputFlush
  | bufFlushStream
  | bufResize (size : Nat)
  | bufReset
  | getMetadata (offset : Int)
  | freeMetadata
  | defaultMetadata
  | setIcy
  | codecOpen (codec size rate channels endian : Nat)
  | outputStart
  | wakeController
  | lockS
  | unlockS
  | lockO
  | unlockO
  | lockD
  | unlockD
  deriving DecidableEq, Repr

/-- Metadata returned by sq_get_metadata. -/
structure Meta where
  duration : Nat
  bitrate : Nat
  remote : Bool
  sample_size : Nat
  sample_rate : Nat
  deriving DecidableEq, Repr

/-- Configuration mode string, in parsed form: the C code probes the string
config.mode with stristr for pcm/flc/mp3 (THRU as the stable default), the
substring flow, and the r:/s:/flac:/mp3: numeric parameters (r and s read 0
when absent, flac and mp3 keep defaults when absent). -/
structure ModeCfg where
  kind : EncodeMode
  flow : Bool
  r : Int
  s : Nat
  flac : Option Nat
  mp3 : Option Nat
  deriving DecidableEq, Repr

/-- Player configuration surface used by the controller. Strings are byte
lists. -/
structure Config where
  name : List Nat
  sample_rate : Nat
  send_icy : Bool
  outputbuf_size : Nat
  mode : ModeCfg
  l24 : L24Mode
  raw_wav : Bool
  raw_aif : Bool
  stream_length : Int
  deriving DecidableEq, Repr

/-- Output-side state (struct outputstate), restricted to the fields the
controller reads or writes. -/
structure OutputCtx where
  state : OutputState
  track_started : Bool
  completed : Bool
  remote : Bool
  encode_flow : Bool
  encode_mode : EncodeMode
  encode_sample_size : Nat
  encode_sample_rate : Nat
  encode_channels : Nat
  encode_level : Nat
  sample_size : Nat
  sample_rate : Nat
  channels : Nat
  in_endian : Nat
  codec : Nat
  next_replay_gain : Nat
  fade_mode : Nat
  fade_secs : Nat
  start_at : Nat
  index : Int
  duration : Nat
  bitrate : Nat
  supported_rate : Int
  mimetype : List Nat
  format : Nat
  out_endian : Bool
  stream_length : Int
  time_offset : Nat
  deriving DecidableEq, Repr

/-- Stream reader state visible to the controller. -/
structure StreamCtx where
  state : StreamState
  disconnect : DisconnectCode
  bytes : Nat
  sent_headers : Bool
  header : List Nat
  meta_send : Bool
  meta_interval : Nat
  meta_next : Nat
  deriving DecidableEq, Repr

/-- Rendering progress published by the player side. -/
structure RenderCtx where
  state : RenderState
  duration : Nat
  ms_played : Nat
  index : Int
  deriving DecidableEq, Repr

/-- Status snapshot assembled by the ticker and reported in STAT packets. -/
structure StatusCtx where
  stream_full : Nat
  stream_size : Nat
  stream_bytes : Nat
  stream_state : StreamState
  output_full : Nat
  output_size : Nat
  sample_rate : Nat
  output_ready : Bool
  duration : Nat
  ms_played : Nat
  last : Nat
  deriving DecidableEq, Repr

/-- Controller context (the slice of struct thread_ctx_s the claims are
about). -/
structure Ctx where
  output : OutputCtx
  stream : StreamCtx
  decode_state : DecodeState
  render : RenderCtx
  status : StatusCtx
  config : Config
  canSTMdu : Bool
  sentSTMu : Bool
  sentSTMo : Bool
  sentSTMl : Bool
  sentSTMd : Bool
  last_command : Char
  autostart : Nat
  slimproto_ip : Nat
  new_server : Nat
  new_server_cap : Option (List Nat)
  var_cap : List Nat
  streambuf_size : Nat
  outputbuf_size : Nat
  player_on : Bool
  slim_run_last : Nat
  deriving DecidableEq, Repr

/-- External collaborators and external observations: results of the mime
registry, codec, output and stream calls, plus the clock and stream buffer
fill read by the ticker. -/
structure Env where
  stream_disconnect_ret : Bool
  now : Nat
  buf_used_stream : Nat
  metadata : Meta
  find_mime : Nat → Option (List Nat) → Option (List Nat)
  find_pcm_mime : Nat → Bool → Nat → Nat → Option (List Nat) × Nat
  mimetype_to_format : List Nat → Nat
  codec_open_ok : Bool
  output_start_ok : Bool
  set_track_ok : Bool
  buf_reset_ok : Bool

/-- Fixed struct of the strm opcode, plus the appended HTTP header bytes. -/
structure StrmPacket where
  command : Char
  autostart : Char
  format : Char
  pcm_sample_size : Char
  pcm_sample_rate : Char
  pcm_channels : Char
  pcm_endianness : Char
  threshold : Nat
  output_threshold : Nat
  replay_gain : Nat
  server_port : Nat
  server_ip : Nat
  transition_period : Nat
  transition_type : Char
  header : List Nat
  deriving DecidableEq, Repr

/- ------------------------------------------------------------------ -/
/- Receive pump (slimproto_run, lines 516..554): two-phase framed read. -/
/- ------------------------------------------------------------------ -/

/-- Receive pump over a byte stream: read a 2-byte big-endian length, fail
fatally when it exceeds MAXBUF, otherwise consume that many bytes as one
frame and continue. Returns the list of frame bodies handed to the
dispatcher and whether the oversize-fatal exit was taken. A zero length
sends the loop back to the length phase without dispatching; a truncated
tail is left pending. -/
def pump : List Nat → List (List Nat) × Bool
  | [] => ([], false)
  | [_] => ([], false)
  | b0 :: b1 :: rest =>
    let expect := b0 * 256 + b1
    if expect > MAXBUF then ([], true)
    else if expect = 0 then pump rest
    else if expect ≤ rest.length then
      let r := pump (rest.drop expect)
      (rest.take expect :: r.1, r.2)
    else ([], false)
  termination_by l => l.length
  decreasing_by
  · simp; omega
  · simp [List.length_drop]; omega

/-- Wire encoding of one control frame: 2-byte big-endian length prefix
followed by the body. -/
def encodeFrame (f : List Nat) : List Nat := f.length / 256 :: f.length % 256 :: f

/- ------------------------------------------------------------------ -/
/- Format negotiator process_start (lines 968..1167).                  -/
/- ------------------------------------------------------------------ -/

/-- PCM sample size table of slimproto.c. -/
def pcm_sample_size : List Nat := [8, 16, 24, 32]

/-- PCM sample rate table of slimproto.c. -/
def pcm_sample_rate : List Nat :=
  [11025, 22050, 32000, 44100, 48000, 8000, 12000, 16000, 24000, 96000, 88200,
   176400, 192000, 352800, 384000]

/-- PCM channel count table of slimproto.c. -/
def pcm_channels : List Nat := [1, 2]

/-- Collaborator invocations performed inside process_start; a sub-type of
Action so that by construction the negotiator performs no wire send. -/
inductive PSAct
  | lockO
  | unlockO
  | bufResize (size : Nat)
  | getMetadata (offset : Int)
  | freeMetadata
  | defaultMetadata
  | setIcy
  | bufReset
  | codecOpen (codec size rate channels endian : Nat)
  | outputStart
  | setTrack
  deriving DecidableEq, Repr

/-- Embedding of process_start actions into the common action vocabulary. -/
def PSAct.toAction : PSAct → Action
  | .lockO => .lockO
  | .unlockO => .unlockO
  | .bufResize n => .bufResize n
  | .getMetadata o => .getMetadata o
  | .freeMetadata => .freeMetadata
  | .defaultMetadata => .defaultMetadata
  | .setIcy => .setIcy
  | .bufReset => .bufReset
  | .codecOpen a b c d e => .codecOpen a b c d e
  | .outputStart => .outputStart
  | .setTrack => .callback .SQ_SET_TRACK

/-- Byte string audio/L, probed inside the mimetype returned for PCM. -/
def audioLBytes : List Nat := [97, 117, 100, 105, 111, 47, 76]

/-- Leading-match test on byte lists (strncmp-style). -/
def startsWithBytes : List Nat → List Nat → Bool
  | [], _ => true
  | _ :: _, [] => false
  | a :: p, b :: l => a == b && startsWithBytes p l

/-- Substring test on byte lists (strstr-style). -/
def containsBytes (p : List Nat) : List Nat → Bool
  | [] => startsWithBytes p []
  | b :: l => startsWithBytes p (b :: l) || containsBytes p l

/-- Tail of process_start (lines 1145..1166): when a mimetype was matched,
record it, open the codec and start the output, and publish the track to
the bridge; otherwise fail. codec_open is always attempted, output_start
only when codec_open succeeded; on failure the metadata is freed. -/
def ps_finish (mt : Option (List Nat)) (out : OutputCtx) (cfg : Config) (env : Env)
    (acts : List PSAct) : OutputCtx × List PSAct × Bool :=
  match mt with
  | none => (out, acts, false)
  | some m =>
    let fm := env.mimetype_to_format m
    let out := { out with
      mimetype := m, format := fm, out_endian := decide (fm = 119),
      stream_length := cfg.stream_length }
    if env.codec_open_ok then
      if env.output_start_ok then
        (out, acts ++ [.codecOpen out.codec out.sample_size out.sample_rate out.channels out.in_endian,
                       .outputStart, .setTrack], env.set_track_ok)
      else
        (out, acts ++ [.codecOpen out.codec out.sample_size out.sample_rate out.channels out.in_endian,
                       .outputStart, .freeMetadata], false)
    else
      (out, acts ++ [.codecOpen out.codec out.sample_size out.sample_rate out.channels out.in_endian,
                     .freeMetadata], false)

/-- Format negotiator process_start: reads the coded format/rate/size/
channels/endianness fields, pulls metadata, applies the configured
processing mode and picks a mimetype through the registry, then opens the
codec and starts the output. Returns the updated output state, the
collaborator calls made, and the overall success flag (false makes the
caller send STMn). renderIndex is ctx->render.index. -/
def process_start (format rate size channels endianness : Char) (out0 : OutputCtx)
    (renderIndex : Int) (cfg : Config) (env : Env) : OutputCtx × List PSAct × Bool :=
  let index1 := out0.index + 1
  let offset : Int := if renderIndex ≠ -1 then index1 - renderIndex else 0
  let acts0 : List PSAct := [.lockO, .bufResize cfg.outputbuf_size, .unlockO, .getMetadata offset]
  let md := env.metadata
  let out1 := { out0 with
    index := index1, completed := false, duration := md.duration,
    bitrate := md.bitrate, remote := md.remote }
  let out2 := { out1 with
    sample_size := if format ≠ 'a'
      then (if size ≠ '?' then pcm_sample_size.getD (size.toNat - 48) 0 else 0)
      else size.toNat,
    sample_rate := if rate ≠ '?' then pcm_sample_rate.getD (rate.toNat - 48) 0 else 0 }
  let out3 := { out2 with
    sample_rate := if out2.sample_rate > cfg.sample_rate then cfg.sample_rate
      else out2.sample_rate }
  let out4 := { out3 with
    channels := if channels ≠ '?' then pcm_channels.getD (channels.toNat - 49) 0 else 0,
    in_endian := if endianness ≠ '?' then endianness.toNat - 48 else 255,
    codec := format.toNat }
  if out4.encode_flow then
    (out4, acts0 ++ [.freeMetadata,
      .codecOpen out4.codec out4.sample_size out4.sample_rate out4.channels out4.in_endian],
      env.codec_open_ok)
  else
    let out5 := { out4 with
      encode_mode := cfg.mode.kind, encode_sample_size := cfg.mode.s,
      encode_channels := 0, time_offset := 0 }
    let sr0 : Int := cfg.mode.r
    let acts1 := acts0 ++ (if cfg.send_icy ∧ (out5.duration = 0 ∨ out5.encode_flow) then [PSAct.setIcy] else [])
    let flowReq := cfg.mode.flow ∧ out5.encode_mode ≠ EncodeMode.THRU
    let out6 := { out5 with
      encode_sample_size := if flowReq then
          (if out5.encode_sample_size = 0 then 16 else out5.encode_sample_size)
        else out5.encode_sample_size
      encode_channels := if flowReq then 2 else out5.encode_channels
      encode_flow := if flowReq then true else out5.encode_flow }
    let sr1 : Int := if flowReq then (if sr0 = 0 ∨ sr0 < 0 then 44100 else sr0) else sr0
    let acts2 := acts1 ++ (if flowReq
      then (if cfg.send_icy then [PSAct.setIcy] else []) ++ [PSAct.freeMetadata, PSAct.defaultMetadata]
      else (if cfg.send_icy ∧ out6.duration = 0 then [PSAct.setIcy] else []))
    let sup : Int := if sr1 > 0 then sr1
      else if sr1 < 0 then (if out6.sample_rate ≠ 0 then min (out6.sample_rate : Int) (abs sr1) else sr1)
      else (out6.sample_rate : Int)
    let out7 := { out6 with
      supported_rate := sup,
      encode_sample_rate := if sup > 0 then sup.toNat else 0 }
    if out7.encode_mode = EncodeMode.THRU ∨ (out7.encode_mode = EncodeMode.PCM ∧ out7.codec = 112) then
      let acts3 := acts2 ++ (if out7.encode_mode = EncodeMode.THRU then [PSAct.bufReset] else [])
      if out7.codec = 112 then
        let ess := if out7.encode_sample_size = 0
          then (if out7.sample_size = 24 ∧ cfg.l24 = L24Mode.L24_TRUNC16 then 16 else out7.sample_size)
          else out7.encode_sample_size
        let pr := env.find_pcm_mime ess (cfg.l24 = L24Mode.L24_TRUNC16_PCM) out7.encode_sample_rate out7.channels
        let out8 := { out7 with encode_sample_size := pr.2, encode_mode := EncodeMode.PCM }
        ps_finish pr.1 out8 cfg env acts3
      else
        let mt := env.find_mime out7.codec none
        let out8 := { out7 with codec := if out7.codec = 102 then 99 else 42 }
        ps_finish mt out8 cfg env acts3
    else if out7.encode_mode = EncodeMode.PCM then
      if out7.encode_sample_rate ≠ 0 ∧ out7.encode_sample_size ≠ 0 then
        let pr := env.find_pcm_mime out7.encode_sample_size (cfg.l24 = L24Mode.L24_TRUNC16_PCM)
                    out7.encode_sample_rate 2
        let out8 := { out7 with encode_sample_size := pr.2 }
        ps_finish pr.1 out8 cfg env acts2
      else if (md.sample_size ≠ 0 ∨ out7.encode_sample_size ≠ 0) ∧
              (md.sample_rate ≠ 0 ∨ out7.encode_sample_rate ≠ 0 ∨ out7.supported_rate ≠ 0) then
        let ss := if out7.encode_sample_size ≠ 0 then out7.encode_sample_size else md.sample_size
        let srX := if out7.encode_sample_rate ≠ 0 then out7.encode_sample_rate
          else if out7.supported_rate < 0 then out7.supported_rate.natAbs else md.sample_rate
        let pr := env.find_pcm_mime ss (cfg.l24 = L24Mode.L24_TRUNC16_PCM) srX 2
        let mt := pr.1.map (fun m => if containsBytes audioLBytes m then [42] else m)
        ps_finish mt out7 cfg env acts2
      else
        let fmtFilter := (if cfg.raw_wav then [119, 97, 118] else []) ++
                         (if cfg.raw_aif then [97, 105, 102] else [])
        let mt := env.find_mime 112 (some fmtFilter)
        ps_finish mt out7 cfg env acts2
    else if out7.encode_mode = EncodeMode.FLAC then
      let mt := env.find_mime 102 none
      let out8 := { out7 with
        encode_sample_size := if out7.sample_size > 24 then 24 else out7.encode_sample_size }
      let lvl := match cfg.mode.flac with
        | some v => v
        | none => out8.encode_level
      let out9 := { out8 with encode_level := if lvl > 9 then 0 else lvl }
      ps_finish mt out9 cfg env acts2
    else
      let mt := env.find_mime 109 none
      let out8 := { out7 with encode_sample_size := 16 }
      let out9 := { out8 with
        supported_rate := if out8.supported_rate = 0 ∨ out8.supported_rate < -48000 then -48000
          else if out8.supported_rate > 48000 then 48000 else out8.supported_rate
        encode_sample_rate := if out8.supported_rate = 0 ∨ out8.supported_rate < -48000
          then out8.encode_sample_rate
          else if out8.supported_rate > 48000 then 48000 else out8.encode_sample_rate }
      let lvl := match cfg.mode.mp3 with
        | some v => if v > 320 then 320 else v
        | none => 128
      let out10 := { out9 with encode_level := lvl }
      ps_finish mt out10 cfg env acts2

/- ------------------------------------------------------------------ -/
/- Opcode handlers (process_strm .. process_serv, lines 225..465).     -/
/- ------------------------------------------------------------------ -/

/-- Conversion of an ASCII digit byte to its value, as the C code computes
it on a u8 (strm->autostart - the character zero, wrapping modulo 256). -/
def digitOf (c : Char) : Nat := (c.toNat + 256 - 48) % 256

/-- Reset of the one-shot latches performed by strm s (line 329). -/
def resetLatches (c : Ctx) : Ctx :=
  { c with
    canSTMdu := false, sentSTMu := false, sentSTMo := false,
    sentSTMl := false, sentSTMd := false }

/-- Handler of the strm opcode (process_strm, lines 225..344). Dispatches
on the subcommand byte; always records it in last_command. -/
def process_strm (p : StrmPacket) (c : Ctx) (env : Env) : Ctx × List Action :=
  if p.command = 't' then
    ({ c with last_command := 't' }, [Action.sendSTAT .STMt p.replay_gain])
  else if p.command = 'f' then
    ({ c with status := { c.status with ms_played := 0 }, last_command := 'f' },
     [Action.decodeFlush, Action.outputFlush, Action.streamDisconnect,
      Action.sendSTAT .STMf 0, Action.bufFlushStream])
  else if p.command = 'q' then
    ({ c with status := { c.status with ms_played := 0 }, last_command := 'q' },
     [Action.decodeFlush, Action.outputFlush, Action.streamDisconnect]
       ++ (if env.stream_disconnect_ret then [Action.sendSTAT .STMf 0] else [])
       ++ [Action.bufFlushStream]
       ++ (if c.last_command ≠ 'q' then [Action.callback .SQ_STOP] else []))
  else if p.command = 'p' then
    if p.replay_gain = 0 then
      ({ c with output := { c.output with state := .WAITING }, last_command := 'p' },
       [Action.lockO, Action.unlockO, Action.callback .SQ_PAUSE, Action.sendSTAT .STMp 0])
    else
      ({ c with last_command := 'p' }, [])
  else if p.command = 'a' then
    ({ c with last_command := 'a' }, [])
  else if p.command = 'u' then
    ({ c with
        output := { c.output with state := .RUNNING, start_at := p.replay_gain }
        last_command := 'u' },
     [Action.callback .SQ_UNPAUSE, Action.lockO, Action.unlockO, Action.sendSTAT .STMr 0])
  else if p.command = 's' then
    let c1 := { c with autostart := digitOf p.autostart }
    if p.header.length > MAX_HEADER - 1 then
      ({ c1 with last_command := 's' }, [Action.sendSTAT .STMf 0])
    else
      let out0 := { c1.output with
        next_replay_gain := p.replay_gain,
        fade_mode := digitOf p.transition_type,
        fade_secs := p.transition_period }
      let ip := if p.server_ip = 0 then c1.slimproto_ip else p.server_ip
      if p.format ≠ '?' then
        let ps := process_start p.format p.pcm_sample_rate p.pcm_sample_size p.pcm_channels
                    p.pcm_endianness out0 c1.render.index c1.config env
        ({ resetLatches c1 with output := ps.1, last_command := 's' },
         [Action.sendSTAT .STMf 0] ++ ps.2.1.map PSAct.toAction
           ++ [Action.streamSock ip p.server_port p.header (p.threshold * 1024)
                 (decide (c1.autostart ≥ 2)),
               Action.sendSTAT .STMc 0]
           ++ (if ps.2.2 then [] else [Action.sendSTAT .STMn 0]))
      else if c1.autostart ≥ 2 then
        ({ resetLatches c1 with output := out0, last_command := 's' },
         [Action.sendSTAT .STMf 0,
          Action.streamSock ip p.server_port p.header (p.threshold * 1024)
            (decide (c1.autostart ≥ 2)),
          Action.sendSTAT .STMc 0])
      else
        ({ c1 with output := out0, last_command := 's' }, [Action.sendSTAT .STMf 0])
  else
    ({ c with last_command := p.command }, [])

/-- Handler of the cont opcode (lines 347..364): when autostart is 2 or 3,
demote it by 2 and move a waiting stream to buffering, recording the ICY
meta interval, then wake the controller. -/
def process_cont (metaint : Nat) (c : Ctx) : Ctx × List Action :=
  if c.autostart > 1 then
    let c1 := { c with autostart := c.autostart - 2 }
    let c2 := if c1.stream.state = .STREAMING_WAIT then
        { c1 with stream := { c1.stream with
            state := .STREAMING_BUFFERING, meta_interval := metaint, meta_next := metaint } }
      else c1
    (c2, [Action.lockS, Action.unlockS, Action.wakeController])
  else (c, [])

/-- Handler of the codc opcode (lines 367..375): run the format negotiator;
send STMn on failure. -/
def process_codc (format rate size channels endianness : Char) (c : Ctx) (env : Env) :
    Ctx × List Action :=
  let ps := process_start format rate size channels endianness c.output c.render.index c.config env
  ({ c with output := ps.1 },
   ps.2.1.map PSAct.toAction ++ (if ps.2.2 then [] else [Action.sendSTAT .STMn 0]))

/-- Handler of the aude opcode (lines 378..387). -/
def process_aude (enable_spdif : Nat) (c : Ctx) : Ctx × List Action :=
  ({ c with player_on := decide (enable_spdif ≠ 0) },
   [Action.lockO, Action.unlockO, Action.callback .SQ_ONOFF])

/-- Handler of the audg opcode (lines 390..403): the gain is the u16
truncation of (old_gainL + old_gainL) / 2 computed in u32 arithmetic. -/
def process_audg (old_gainL _old_gainR adjust : Nat) (c : Ctx) : Ctx × List Action :=
  let gain := (old_gainL + old_gainL) % 4294967296 / 2 % 65536
  (c, if adjust ≠ 0 then [Action.callback (.SQ_VOLUME gain)] else [])

/-- Handler of the setd opcode (lines 406..424), id 0 only: an empty
payload queries the player name, a populated one stores it (strncpy
truncation at STR_LEN with a forced terminator) and echoes it back. -/
def process_setd (id : Nat) (data : List Nat) (c : Ctx) : Ctx × List Action :=
  if id = 0 then
    if data = [] then
      (c, if c.config.name ≠ [] then [Action.sendSETD c.config.name] else [])
    else
      let newName := (data.takeWhile (fun b => b ≠ 0)).take (STR_LEN - 1)
      ({ c with config := { c.config with name := newName } },
       [Action.sendSETD (data.takeWhile (fun b => b ≠ 0)), Action.callback .SQ_SETNAME])
  else (c, [])

/-- Byte string ",SyncgroupID=" (SYNC_CAP in slimproto.c). -/
def SYNC_CAP : List Nat := [44, 83, 121, 110, 99, 103, 114, 111, 117, 112, 73, 68, 61]

/-- Handler of the serv opcode (lines 436..458): record the migration
target; when exactly 10 bytes trail the fixed struct, compose the sync
group capability with strncat semantics (stops at a zero byte), otherwise
clear any stored capability. -/
def process_serv (server_ip : Nat) (trailing : List Nat) (c : Ctx) : Ctx × List Action :=
  let c1 := { c with new_server := server_ip }
  let cap := some (SYNC_CAP ++ (trailing.takeWhile (fun b => b ≠ 0)).take 10)
  let c2 := if trailing.length = 10 then { c1 with new_server_cap := cap }
    else { c1 with new_server_cap := none }
  (c2, [Action.callback .SQ_SETSERVER])

/-- Connect-time variable capability composition (slimproto, lines
881..889): on a successful connect var_cap is cleared, then any pending
new_server_cap is appended and consumed. -/
def connectVarCap (c : Ctx) : Ctx × List Nat :=
  match c.new_server_cap with
  | some s => ({ c with var_cap := s, new_server_cap := none }, s)
  | none => ({ c with var_cap := [] }, [])

/-- End of one connection-loop iteration (slimproto, lines 899..907):
after slimproto_run returns, the sockets are closed and any pending
new_server_cap is unconditionally freed and cleared. This always runs
between a serv opcode (handled inside slimproto_run) and the next
iteration's connect. -/
def loopTeardown (c : Ctx) : Ctx := { c with new_server_cap := none }

/-- Variable capability actually carried by the next HELO after the
receive loop unwinds: the end-of-iteration teardown always executes
before the next connect composes var_cap. -/
def nextHeloVarCap (c : Ctx) : Ctx × List Nat := connectVarCap (loopTeardown c)

/- ------------------------------------------------------------------ -/
/- Status ticker (slimproto_run, lines 593..756).                      -/
/- The C body is a single sequential pass; here each intermediate      -/
/- value is a named function of the pre-tick state, in source order.   -/
/- ------------------------------------------------------------------ -/

/-- DSCO flag (line 617): the stream just transitioned to DISCONNECT. -/
def fDsco (c : Ctx) : Bool := decide (c.stream.state = .DISCONNECT)

/-- Stream state after the DSCO transition (line 619). -/
def tkStr1 (c : Ctx) : StreamCtx :=
  if fDsco c then { c.stream with state := .STOPPED } else c.stream

/-- RESP flag (lines 623..625): unsent HTTP response headers while the
stream is in HTTP, WAIT or BUFFERING. -/
def fResp (c : Ctx) : Bool :=
  !(tkStr1 c).sent_headers &&
    (decide ((tkStr1 c).state = .STREAMING_HTTP) || decide ((tkStr1 c).state = .STREAMING_WAIT) ||
     decide ((tkStr1 c).state = .STREAMING_BUFFERING))

/-- Stream state after the RESP copy (line 629). -/
def tkStr2 (c : Ctx) : StreamCtx :=
  if fResp c then { tkStr1 c with sent_headers := true } else tkStr1 c

/-- META flag (line 631). -/
def fMeta (c : Ctx) : Bool := (tkStr2 c).meta_send

/-- Stream state at the end of the stream-lock section (line 635). -/
def tkStr3 (c : Ctx) : StreamCtx :=
  if fMeta c then { tkStr2 c with meta_send := false } else tkStr2 c

/-- Sampled output readiness (line 644): output completed or flow mode. -/
def outputReady (c : Ctx) : Bool := c.output.completed || c.output.encode_flow

/-- STMs flag (line 649): the output thread consumed the first sample. -/
def fStms (c : Ctx) : Bool := c.output.track_started

/-- Output state after the STMs branch clears track_started (line 652). -/
def tkOut1 (c : Ctx) : OutputCtx :=
  if fStms c then { c.output with track_started := false } else c.output

/-- canSTMdu after the STMs branch (line 651). -/
def tkCan1 (c : Ctx) : Bool := fStms c || c.canSTMdu

/-- Streaming-failure condition (line 656): no byte ever received while
the output completed in RUNNING state. -/
def fFail (c : Ctx) : Bool :=
  decide (c.stream.bytes = 0) && (tkOut1 c).completed && decide ((tkOut1 c).state = .RUNNING)

/-- Render state after the failure branch (line 659). -/
def tkRen1 (c : Ctx) : RenderCtx :=
  if fFail c then { c.render with state := .RD_STOPPED } else c.render

/-- canSTMdu after the failure branch (line 660). -/
def tkCan2 (c : Ctx) : Bool := fFail c || tkCan1 c

/-- STMu flag (lines 665..667): normal end of track with underrun. The
stream_state read here is the status sample taken before the DSCO
transition, hence c.stream.state. -/
def fStmu (c : Ctx) : Bool :=
  decide ((tkOut1 c).state = .RUNNING) && !c.sentSTMu && outputReady c &&
    decide (c.stream.state.toNat ≤ StreamState.DISCONNECT.toNat) &&
    decide ((tkRen1 c).state = .RD_STOPPED) && tkCan2 c

/-- Output state after the STMu branch (lines 671..672). -/
def tkOut2 (c : Ctx) : OutputCtx :=
  if fStmu c then { tkOut1 c with encode_flow := false, state := .STOPPED } else tkOut1 c

/-- STMo flag (lines 676..678): unexpected end while the HTTP stream is
still open. -/
def fStmo (c : Ctx) : Bool :=
  decide ((tkOut2 c).state = .RUNNING) && !c.sentSTMo &&
    decide (c.stream.state = .STREAMING_HTTP) &&
    decide ((tkRen1 c).state = .RD_STOPPED) && tkCan2 c

/-- Output state after the STMo branch (line 681). -/
def tkOut3 (c : Ctx) : OutputCtx :=
  if fStmo c then { tkOut2 c with state := .STOPPED } else tkOut2 c

/-- STMt flag (line 688): periodic tick while decoding. -/
def fStmt (c : Ctx) (now : Nat) : Bool :=
  decide (c.decode_state = .RUNNING) && decide (u32sub now c.status.last > 1000)

/-- Loaded condition (lines 693..695): stream delivering and decoder
READY, STMl not yet latched. -/
def fLoaded (c : Ctx) : Bool :=
  (decide (c.stream.state = .STREAMING_HTTP) || decide (c.stream.state = .STREAMING_FILE) ||
   (decide (c.stream.state = .DISCONNECT) && decide (c.stream.disconnect = .DISCONNECT_OK))) &&
  !c.sentSTMl && decide (c.decode_state = .READY)

/-- STMl flag (line 698): only emitted for autostart 0. -/
def fStml (c : Ctx) : Bool := fLoaded c && decide (c.autostart = 0)

/-- Decoder state after the loaded branch (lines 697 and 701). -/
def tkDec1 (c : Ctx) : DecodeState :=
  if fLoaded c && (decide (c.autostart = 0) || decide (c.autostart = 1)) then .RUNNING
  else c.decode_state

/-- Inner output lock of the loaded branch for autostart 1 (lines
702..705). -/
def fLockO2 (c : Ctx) : Bool := fLoaded c && decide (c.autostart = 1)

/-- Output state after the loaded branch (line 704). -/
def tkOut4 (c : Ctx) : OutputCtx :=
  if fLockO2 c then { tkOut3 c with state := .RUNNING } else tkOut3 c

/-- STMd/STMn decision (lines 727..730): decode complete gated by
canSTMdu, output readiness and the flow/local/near-end disjunction, or
decode error. -/
def fStmdCond (c : Ctx) : Bool :=
  (decide (tkDec1 c = .COMPLETE) && tkCan2 c && outputReady c &&
    ((tkOut4 c).encode_flow || !(tkOut4 c).remote ||
      (decide (c.render.duration ≠ 0) &&
       decide (u32sub c.render.duration c.render.ms_played < STREAM_DELAY)))) ||
  decide (tkDec1 c = .ERROR)

/-- STMd flag (line 732). -/
def fStmd (c : Ctx) : Bool := fStmdCond c && decide (tkDec1 c = .COMPLETE)

/-- STMn flag from decode error (line 733). -/
def fStmnE (c : Ctx) : Bool := fStmdCond c && decide (tkDec1 c = .ERROR)

/-- STMn flag (lines 661 and 733 combined into one send flag). -/
def fStmn (c : Ctx) : Bool := fFail c || fStmnE c

/-- Decoder state at the end of the tick (line 734). -/
def tkDec2 (c : Ctx) : DecodeState := if fStmdCond c then .STOPPED else tkDec1 c

/-- Deferred stream_disconnect flag (lines 735..738). -/
def fDisc (c : Ctx) : Bool :=
  fStmdCond c &&
    (decide (c.stream.state = .STREAMING_HTTP) || decide (c.stream.state = .STREAMING_FILE))

/-- Status snapshot written by the tick (lines 612..615, 641..646, 670,
689..691). -/
def tkStatus (c : Ctx) (env : Env) : StatusCtx :=
  { c.status with
    stream_full := env.buf_used_stream
    stream_size := c.streambuf_size
    stream_bytes := c.stream.bytes
    stream_state := c.stream.state
    output_full := if fStmu c then 0 else (if c.sentSTMu then 0 else c.outputbuf_size / 2)
    output_size := c.outputbuf_size
    sample_rate := c.output.sample_rate
    output_ready := outputReady c
    duration := c.render.duration
    ms_played := c.render.ms_played
    last := if fStmt c env.now then env.now else c.status.last }

/-- Controller context after one ticker pass. -/
def tickCtx (c : Ctx) (env : Env) : Ctx :=
  { c with
    stream := tkStr3 c
    output := tkOut4 c
    render := tkRen1 c
    decode_state := tkDec2 c
    canSTMdu := tkCan2 c
    sentSTMu := fStmu c || c.sentSTMu
    sentSTMo := fStmo c || c.sentSTMo
    sentSTMl := fStml c || c.sentSTMl
    status := tkStatus c env
    slim_run_last := env.now }

/-- Actions of the locked phase of the tick, in program order: the three
lock sections (with the inner output lock and the SQ_PLAY callback of the
loaded branch), then the deferred stream_disconnect (line 744). -/
def tickLocked (c : Ctx) : List Action :=
  [Action.lockS, Action.unlockS, Action.lockO, Action.unlockO, Action.lockD]
    ++ (if fLockO2 c then [Action.lockO, Action.unlockO] else [])
    ++ (if fLoaded c then [Action.callback .SQ_PLAY] else [])
    ++ [Action.unlockD]
    ++ (if fDisc c then [Action.streamDisconnect] else [])

/-- Flagged sends of one tick in their fixed emission order (lines
747..756): DSCO, STMs, STMt, STMl, STMd, STMu, STMo, STMn, RESP, META. -/
def tickSendPieces (c : Ctx) (env : Env) : List (Bool × Action) :=
  [(fDsco c, Action.sendDSCO c.stream.disconnect),
   (fStms c, Action.sendSTAT .STMs 0),
   (fStmt c env.now, Action.sendSTAT .STMt 0),
   (fStml c, Action.sendSTAT .STMl 0),
   (fStmd c, Action.sendSTAT .STMd 0),
   (fStmu c, Action.sendSTAT .STMu 0),
   (fStmo c, Action.sendSTAT .STMo 0),
   (fStmn c, Action.sendSTAT .STMn 0),
   (fResp c, Action.sendRESP c.stream.header),
   (fMeta c, Action.sendMETA c.stream.header)]

/-- Interleaving of flagged singletons, preserving order. -/
def buildOpt : List (Bool × Action) → List Action
  | [] => []
  | (b, a) :: r => (if b then [a] else []) ++ buildOpt r

/-- Send phase of one tick. -/
def tickSends (c : Ctx) (env : Env) : List Action := buildOpt (tickSendPieces c env)

/-- One ticker invocation: new controller state and emitted actions. -/
def tick (c : Ctx) (env : Env) : Ctx × List Action :=
  (tickCtx c env, tickLocked c ++ tickSends c env)

/- ------------------------------------------------------------------ -/
/- Frames, external events and traces.                                 -/
/- ------------------------------------------------------------------ -/

/-- Parsed control frames dispatched by process (lines 486..497). -/
inductive Frame
  | strm (p : StrmPacket)
  | cont (metaint : Nat) (loopCount : Nat)
  | codc (format rate size channels endianness : Char)
  | aude (enable_spdif : Nat)
  | audg (old_gainL old_gainR adjust : Nat)
  | setd (id : Nat) (data : List Nat)
  | serv (server_ip : Nat) (trailing : List Nat)
  | ledc
  | vers
  | unknown
  deriving DecidableEq, Repr

/-- Dispatcher over the handler table. -/
def processFrame (f : Frame) (c : Ctx) (env : Env) : Ctx × List Action :=
  match f with
  | .strm p => process_strm p c env
  | .cont m _ => process_cont m c
  | .codc fo r sz ch e => process_codc fo r sz ch e c env
  | .aude en => process_aude en c
  | .audg l r adj => process_audg l r adj c
  | .setd id data => process_setd id data c
  | .serv ip tr => process_serv ip tr c
  | .ledc => (c, [])
  | .vers => (c, [])
  | .unknown => (c, [])

/-- One asynchronous update by the collaborator threads (stream reader,
decoder, output, renderer). Fields left none are untouched; track_started
can only be raised here, and the controller-owned latches, autostart and
output state are not writable. -/
structure ExtUpdate where
  streamState : Option StreamState
  streamBytes : Option Nat
  streamDisc : Option DisconnectCode
  sentHeaders : Option Bool
  header : Option (List Nat)
  metaSend : Option Bool
  decodeState : Option DecodeState
  outputCompleted : Option Bool
  trackStarted : Bool
  renderState : Option RenderState
  duration : Option Nat
  msPlayed : Option Nat
  deriving DecidableEq, Repr

/-- Application of an external update to the controller context. -/
def applyExt (c : Ctx) (u : ExtUpdate) : Ctx :=
  { c with
    stream := { c.stream with
      state := u.streamState.getD c.stream.state
      bytes := u.streamBytes.getD c.stream.bytes
      disconnect := u.streamDisc.getD c.stream.disconnect
      sent_headers := u.sentHeaders.getD c.stream.sent_headers
      header := u.header.getD c.stream.header
      meta_send := u.metaSend.getD c.stream.meta_send }
    decode_state := u.decodeState.getD c.decode_state
    output := { c.output with
      completed := u.outputCompleted.getD c.output.completed
      track_started := c.output.track_started || u.trackStarted }
    render := { c.render with
      state := u.renderState.getD c.render.state
      duration := u.duration.getD c.render.duration
      ms_played := u.msPlayed.getD c.render.ms_played } }

/-- Events seen by the controller task: a dispatched frame, a ticker
invocation, or an asynchronous update by a collaborator thread. -/
inductive Event
  | frame (f : Frame) (env : Env)
  | tick (env : Env)
  | ext (u : ExtUpdate)

/-- Single event step of the controller. -/
def step (c : Ctx) : Event → Ctx × List Action
  | .frame f env => processFrame f c env
  | .tick env => tick c env
  | .ext u => (applyExt c u, [])

/-- Run over an event trace, accumulating the emitted actions. -/
def run (c : Ctx) : List Event → Ctx × List Action
  | [] => (c, [])
  | e :: es =>
    let s1 := step c e
    let s2 := run s1.1 es
    (s2.1, s1.2 ++ s2.2)

/- ------------------------------------------------------------------ -/
/- Concrete fixtures used by witnesses and counterexamples.            -/
/- ------------------------------------------------------------------ -/

/-- Neutral output state. -/
def baseOut : OutputCtx :=
  { state := .STOPPED, track_started := false, completed := false, remote := false,
    encode_flow := false, encode_mode := .THRU, encode_sample_size := 0,
    encode_sample_rate := 0, encode_channels := 0, encode_level := 0,
    sample_size := 0, sample_rate := 0, channels := 0, in_endian := 0, codec := 0,
    next_replay_gain := 0, fade_mode := 0, fade_secs := 0, start_at := 0, index := 0,
    duration := 0, bitrate := 0, supported_rate := 0, mimetype := [], format := 0,
    out_endian := false, stream_length := 0, time_offset := 0 }

/-- Neutral stream state. -/
def baseStream : StreamCtx :=
  { state := .STOPPED, disconnect := .DISCONNECT_OK, bytes := 0, sent_headers := true,
    header := [], meta_send := false, meta_interval := 0, meta_next := 0 }

/-- Neutral render state. -/
def baseRender : RenderCtx :=
  { state := .RD_STOPPED, duration := 0, ms_played := 0, index := -1 }

/-- Neutral status snapshot. -/
def baseStatus : StatusCtx :=
  { stream_full := 0, stream_size := 0, stream_bytes := 0, stream_state := .STOPPED,
    output_full := 0, output_size := 0, sample_rate := 0, output_ready := false,
    duration := 0, ms_played := 0, last := 0 }

/-- Neutral configuration: pass-through mode, no flow. -/
def baseCfg : Config :=
  { name := [], sample_rate := 192000, send_icy := false, outputbuf_size := 4194304,
    mode := { kind := .THRU, flow := false, r := 0, s := 0, flac := none, mp3 := none },
    l24 := .L24_PASS, raw_wav := false, raw_aif := false, stream_length := -3 }

/-- Neutral controller context. -/
def baseCtx : Ctx :=
  { output := baseOut, stream := baseStream, decode_state := .STOPPED,
    render := baseRender, status := baseStatus, config := baseCfg,
    canSTMdu := false, sentSTMu := false, sentSTMo := false, sentSTMl := false,
    sentSTMd := false, last_command := ' ', autostart := 0,
    slimproto_ip := 3232235521, new_server := 0, new_server_cap := none, var_cap := [],
    streambuf_size := 2097152, outputbuf_size := 4194304, player_on := false,
    slim_run_last := 0 }

/-- Neutral environment: registry knows no codec, collaborator calls
succeed. -/
def baseEnv : Env :=
  { stream_disconnect_ret := true, now := 0, buf_used_stream := 0,
    metadata := { duration := 0, bitrate := 0, remote := false, sample_size := 0,
                  sample_rate := 0 },
    find_mime := fun _ _ => none, find_pcm_mime := fun sz _ _ _ => (none, sz),
    mimetype_to_format := fun _ => 0, codec_open_ok := true, output_start_ok := true,
    set_track_ok := true, buf_reset_ok := true }

/- ------------------------------------------------------------------ -/
/- Helper predicates over action traces.                               -/
/- ------------------------------------------------------------------ -/

/-- Test for a STAT send with a given event code. -/
def isSTAT (e : StatEvent) : Action → Bool
  | .sendSTAT e2 _ => decide (e2 = e)
  | _ => false

/-- Number of STAT sends with a given event code. -/
def countSTAT (e : StatEvent) (l : List Action) : Nat := l.countP (isSTAT e)

/-- Test for any wire send (STAT, DSCO, RESP, META, SETD). -/
def isWireSend : Action → Bool
  | .sendSTAT _ _ => true
  | .sendDSCO _ => true
  | .sendRESP _ => true
  | .sendMETA _ => true
  | .sendSETD _ => true
  | _ => false

/-- Test for a lock or unlock operation. -/
def isLockOp : Action → Bool
  | .lockS => true
  | .unlockS => true
  | .lockO => true
  | .unlockO => true
  | .lockD => true
  | .unlockD => true
  | _ => false

/-- Lock-depth change of one action. -/
def lockDelta : Action → Int
  | .lockS => 1
  | .lockO => 1
  | .lockD => 1
  | .unlockS => -1
  | .unlockO => -1
  | .unlockD => -1
  | _ => 0

/-- Check that every wire send happens with no lock held, walking the
action list with the current lock depth. -/
def sendsUnlocked : List Action → Int → Bool
  | [], _ => true
  | a :: r, h =>
    if isWireSend a then decide (h = 0) && sendsUnlocked r h
    else sendsUnlocked r (h + lockDelta a)

/-- Position of a wire send in the fixed ticker emission order. -/
def sendRank : Action → Nat
  | .sendDSCO _ => 0
  | .sendSTAT .STMs _ => 1
  | .sendSTAT .STMt _ => 2
  | .sendSTAT .STMl _ => 3
  | .sendSTAT .STMd _ => 4
  | .sendSTAT .STMu _ => 5
  | .sendSTAT .STMo _ => 6
  | .sendSTAT .STMn _ => 7
  | .sendRESP _ => 8
  | .sendMETA _ => 9
  | _ => 100

/-- Test for one of the STMd, STMu, STMo events. -/
def isDUO (a : Action) : Bool := isSTAT .STMd a || isSTAT .STMu a || isSTAT .STMo a

/-- Walk of an action list checking that every STMd/STMu/STMo send is
preceded by an STMs send. -/
def stmsPrecedesAux : Bool → List Action → Bool
  | _, [] => true
  | seen, a :: r =>
    if isDUO a && !seen then false
    else stmsPrecedesAux (seen || isSTAT .STMs a) r

/-- Property: in the action list every STMd/STMu/STMo send is preceded
by an earlier STMs send. -/
def stmsPrecedes (l : List Action) : Bool := stmsPrecedesAux false l

/-- Arguments of the stream_sock calls recorded in an action list. -/
def streamSockCalls : List Action → List (Nat × Nat × List Nat × Nat × Bool)
  | [] => []
  | .streamSock ip port hdr thr co :: r => (ip, port, hdr, thr, co) :: streamSockCalls r
  | _ :: r => streamSockCalls r

/-- Number of SQ_STOP callbacks in an action list. -/
def countStop (l : List Action) : Nat := l.countP (fun a => a == Action.callback .SQ_STOP)

/- ------------------------------------------------------------------ -/
/- C4: length-prefixed framing of the receive pump.                    -/
/- ------------------------------------------------------------------ -/

/-- Unfolding of the pump over one well-formed frame followed by a tail. -/
theorem pump_goodStream (fs : List (List Nat)) (tail : List Nat)
    (h : ∀ f ∈ fs, f.length ≤ MAXBUF) :
    pump ((fs.map encodeFrame).flatten ++ tail) =
      ((fs.filter (fun f => !f.isEmpty)) ++ (pump tail).1, (pump tail).2) := by
  induction fs with
  | nil => simp
  | cons f fs ih =>
    have hf : f.length ≤ MAXBUF := h f (by simp)
    have hfs : ∀ g ∈ fs, g.length ≤ MAXBUF := fun g hg => h g (by simp [hg])
    have hlen : f.length / 256 * 256 + f.length % 256 = f.length := by omega
    rcases Nat.eq_zero_or_pos f.length with h0 | hpos
    · have hfnil : f = [] := List.length_eq_zero.mp h0
      subst hfnil
      simpa [encodeFrame, pump] using ih hfs
    · have hne : ¬(f.length > MAXBUF) := by omega
      have hle : f.length ≤ (f ++ ((fs.map encodeFrame).flatten ++ tail)).length := by
        simp
      simp only [List.map_cons, List.flatten, encodeFrame, List.cons_append, List.append_assoc]
      rw [pump]
      simp only [hlen, hne, if_false]
      have hz : ¬(f.length = 0) := by omega
      simp only [hz, if_false, if_neg, hle, if_true, if_pos]
      rw [List.take_left, List.drop_left]
      rw [ih hfs]
      have : ¬(f.isEmpty) := by
        cases f <;> simp_all
      simp [List.filter_cons, this]

/-- C4 (amended): in the receive pump every frame with a nonzero length has
exactly its length-prefix many bytes read and is dispatched as one frame,
while a zero-length prefix only consumes the two prefix bytes and dispatches
nothing; a length above 4096 makes the loop return fatally, dispatching only
the preceding frames and reading nothing of the oversize body (the trailing
bytes are ignored whatever they are). -/
theorem c4_length_framing :
    (∀ fs : List (List Nat), (∀ f ∈ fs, f.length ≤ MAXBUF) →
      pump ((fs.map encodeFrame).flatten) = (fs.filter (fun f => !f.isEmpty), false)) ∧
    (∀ (fs : List (List Nat)) (big suffix : List Nat),
      (∀ f ∈ fs, f.length ≤ MAXBUF) → big.length > MAXBUF → big.length < 65536 →
      pump ((fs.map encodeFrame).flatten ++ (encodeFrame big ++ suffix)) =
        (fs.filter (fun f => !f.isEmpty), true)) := by
  constructor
  · intro fs h
    have := pump_goodStream fs [] h
    simpa [pump] using this
  · intro fs big suffix h hbig _
    have hfatal : pump (encodeFrame big ++ suffix) = ([], true) := by
      have hlen : big.length / 256 * 256 + big.length % 256 = big.length := by omega
      simp only [encodeFrame, List.cons_append]
      rw [pump]
      simp [hlen, hbig]
    have := pump_goodStream fs (encodeFrame big ++ suffix) h
    rw [hfatal] at this
    simpa using this

/-- C4 counterexample: the two-byte prefix 00 00 encodes a frame of length
zero; the pump consumes the prefix but never dispatches the frame, against
the claim that every frame is dispatched as one frame. -/
theorem c4_counterexample :
    encodeFrame [] = [0, 0] ∧ pump (encodeFrame []) = ([], false) ∧
      (pump (encodeFrame [])).1 ≠ [[]] := by
  refine ⟨by decide, ?_, ?_⟩ <;> simp [pump, encodeFrame]

/-- C4 witness: the amended theorem applied to one well-formed stream and
to one stream ending in an oversize frame. -/
theorem c4_witness :
    pump ((([[7, 8, 9], []] : List (List Nat)).map encodeFrame).flatten) = ([[7, 8, 9]], false) ∧
    pump (((([[7, 8, 9]] : List (List Nat)).map encodeFrame).flatten)
        ++ (encodeFrame (List.replicate 4097 1) ++ [5, 6])) = ([[7, 8, 9]], true) := by
  constructor
  · have h := c4_length_framing.1 [[7, 8, 9], []] (by decide)
    simpa using h
  · have h := c4_length_framing.2 [[7, 8, 9]] (List.replicate 4097 1) [5, 6]
      (by decide) (by rw [List.length_replicate]; decide) (by rw [List.length_replicate]; decide)
    have hf : ([[7, 8, 9]] : List (List Nat)).filter (fun f => !f.isEmpty) = [[7, 8, 9]] := by
      decide
    rw [hf] at h
    exact h

/-- Concrete strm s packet: unknown codec x, autostart 1, small header. -/
def pX : StrmPacket :=
  { command := 's'
    autostart := '1'
    format := 'x'
    pcm_sample_size := '1'
    pcm_sample_rate := '3'
    pcm_channels := '1'
    pcm_endianness := '0'
    threshold := 10
    output_threshold := 0
    replay_gain := 0
    server_port := 9000
    server_ip := 0
    transition_period := 0
    transition_type := '0'
    header := [71, 69, 84] }


/- ------------------------------------------------------------------ -/
/- C7: serv opcode and the next HELO variable capability.              -/
/- ------------------------------------------------------------------ -/

/-- C7 (code bug): process_serv composes ",SyncgroupID=" plus the 10-byte
id into new_server_cap (lines 443..449), and the connect-time code of the
next iteration would transfer it into the HELO variable capability
(lines 885..889), but the unconditional free at the end of every
connection-loop iteration (lines 904..907) always runs in between, so
the variable capability that actually reaches the next HELO after a serv
is empty, for every state and every trailer. The theorem records, at the
failing input, the capability the handler stores, the value the
connect-time composition alone would produce, and the empty capability
the next HELO really carries. -/
theorem c7_serv_cap_lost :
    (∀ (c : Ctx) (ip : Nat) (tr : List Nat),
      (nextHeloVarCap (process_serv ip tr c).1).2 = [] ∧
        (nextHeloVarCap (process_serv ip tr c).1).1.new_server_cap = none) ∧
      (process_serv 5 [65, 66, 67, 68, 69, 70, 71, 72, 73, 74] baseCtx).1.new_server_cap =
        some (SYNC_CAP ++ [65, 66, 67, 68, 69, 70, 71, 72, 73, 74]) ∧
      (connectVarCap (process_serv 5 [65, 66, 67, 68, 69, 70, 71, 72, 73, 74] baseCtx).1).2 =
        SYNC_CAP ++ [65, 66, 67, 68, 69, 70, 71, 72, 73, 74] ∧
      (nextHeloVarCap (process_serv 5 [65, 66, 67, 68, 69, 70, 71, 72, 73, 74] baseCtx).1).2
        = [] := by
  refine ⟨?_, by decide, by decide, by decide⟩
  intro c ip tr
  exact ⟨rfl, rfl⟩

/- ------------------------------------------------------------------ -/
/- C8: strm p handling.                                                -/
/- ------------------------------------------------------------------ -/

/-- C8: a strm p with zero interval moves the output to WAITING, invokes
SQ_PAUSE and replies STMp; with a nonzero interval nothing happens apart
from last_command being recorded. -/
theorem c8_pause (p : StrmPacket) (c : Ctx) (env : Env) (hc : p.command = 'p') :
    (p.replay_gain = 0 →
      process_strm p c env =
        ({ c with output := { c.output with state := .WAITING }, last_command := 'p' },
         [Action.lockO, Action.unlockO, Action.callback .SQ_PAUSE, Action.sendSTAT .STMp 0])) ∧
    (p.replay_gain ≠ 0 →
      process_strm p c env = ({ c with last_command := 'p' }, [])) := by
  constructor
  · intro h
    simp [process_strm, hc, h]
  · intro h
    simp [process_strm, hc, h]

/-- C8 witness: the theorem applied at both interval values. -/
theorem c8_witness :
    process_strm { pX with command := 'p', replay_gain := 0 } baseCtx baseEnv =
      ({ baseCtx with output := { baseOut with state := .WAITING }, last_command := 'p' },
       [Action.lockO, Action.unlockO, Action.callback .SQ_PAUSE, Action.sendSTAT .STMp 0]) ∧
    process_strm { pX with command := 'p', replay_gain := 55 } baseCtx baseEnv =
      ({ baseCtx with last_command := 'p' }, []) := by
  constructor
  · exact (c8_pause { pX with command := 'p', replay_gain := 0 } baseCtx baseEnv rfl).1 rfl
  · exact (c8_pause { pX with command := 'p', replay_gain := 55 } baseCtx baseEnv rfl).2
      (by decide)

/- ------------------------------------------------------------------ -/
/- C10: oversize header on strm s.                                     -/
/- ------------------------------------------------------------------ -/

/-- C10: a strm s whose appended header exceeds MAX_HEADER - 1 bytes
returns right after sending STMf: the only action is that send (no
stream_sock, no STMc, no negotiator call), and the resulting context is
the old one with only autostart and last_command updated, so all one-shot
latches keep their values. -/
theorem c10_header_too_long (p : StrmPacket) (c : Ctx) (env : Env) (hc : p.command = 's')
    (hh : p.header.length > MAX_HEADER - 1) :
    process_strm p c env =
      ({ c with autostart := digitOf p.autostart, last_command := 's' },
       [Action.sendSTAT .STMf 0]) := by
  simp [process_strm, hc, hh]

/-- C10 witness: the theorem applied to a 4096-byte header. -/
theorem c10_witness :
    process_strm { pX with header := List.replicate 4096 7 } baseCtx baseEnv =
      ({ baseCtx with autostart := digitOf '1', last_command := 's' },
       [Action.sendSTAT .STMf 0]) :=
  c10_header_too_long { pX with header := List.replicate 4096 7 } baseCtx baseEnv rfl
    (by rw [List.length_replicate]; decide)

/- ------------------------------------------------------------------ -/
/- C9: server ip substitution on strm s.                               -/
/- ------------------------------------------------------------------ -/

/-- Distribution of the stream_sock call extractor over append. -/
theorem streamSockCalls_append (l1 l2 : List Action) :
    streamSockCalls (l1 ++ l2) = streamSockCalls l1 ++ streamSockCalls l2 := by
  induction l1 with
  | nil => rfl
  | cons a r ih => cases a <;> simp [streamSockCalls, ih]

/-- The format negotiator performs no stream_sock call. -/
theorem streamSockCalls_psmap (ps : List PSAct) :
    streamSockCalls (ps.map PSAct.toAction) = [] := by
  induction ps with
  | nil => rfl
  | cons a r ih => cases a <;> simp [PSAct.toAction, streamSockCalls, ih]

/-- C9: any strm s that reaches the connection step calls stream_sock
exactly once, with the packet's server_ip replaced by the control
connection's slimproto_ip when that field is zero, and with the port and
header passed through verbatim. -/
theorem c9_server_ip (p : StrmPacket) (c : Ctx) (env : Env) (hc : p.command = 's')
    (hip : p.server_ip = 0) (hh : ¬ p.header.length > MAX_HEADER - 1)
    (hfmt : p.format ≠ '?' ∨ digitOf p.autostart ≥ 2) :
    streamSockCalls (process_strm p c env).2 =
      [(c.slimproto_ip, p.server_port, p.header, p.threshold * 1024,
        decide (digitOf p.autostart ≥ 2))] := by
  rcases hfmt with hf | ha
  · simp only [process_strm, hc, hh, hip]
    simp [streamSockCalls_append, streamSockCalls_psmap, streamSockCalls, hf]
    split <;> simp [streamSockCalls]
  · by_cases hf : p.format = '?'
    · simp only [process_strm, hc, hh, hip]
      simp [streamSockCalls_append, streamSockCalls, hf, ha]
    · simp only [process_strm, hc, hh, hip]
      simp [streamSockCalls_append, streamSockCalls_psmap, streamSockCalls, hf]
      split <;> simp [streamSockCalls]

/-- C9 witness: the theorem applied to the fixture packet (server_ip 0,
known header, format x, autostart 1). -/
theorem c9_witness :
    streamSockCalls (process_strm pX baseCtx baseEnv).2 =
      [(3232235521, 9000, [71, 69, 84], 10240, false)] := by
  have h := c9_server_ip pX baseCtx baseEnv rfl rfl (by decide) (Or.inl (by decide))
  simpa [digitOf] using h

/- ------------------------------------------------------------------ -/
/- C2: strm s with an unknown codec.                                   -/
/- ------------------------------------------------------------------ -/

/-- The format negotiator fails on codec x when the registry has no
mimetype for it (pass-through mode, flow not active). -/
theorem ps_unknown_thru (r sz ch e : Char) (out : OutputCtx) (ri : Int) (cfg : Config)
    (env : Env) (hflow : out.encode_flow = false) (hmode : cfg.mode.kind = .THRU)
    (hmime : env.find_mime 120 none = none) :
    (process_start 'x' r sz ch e out ri cfg env).2.2 = false := by
  simp [process_start, ps_finish, hflow, hmode, hmime]

/-- The format negotiator emits no STAT send. -/
theorem isSTAT_toAction (ev : StatEvent) (a : PSAct) : isSTAT ev a.toAction = false := by
  cases a <;> rfl

/-- C2 counterexample: on the concrete strm s packet with format x and
autostart 1, the handler does call stream_sock (the call list is not
empty), refuting the claim that no stream_sock call happens; STMn is
nevertheless sent. -/
theorem c2_counterexample :
    streamSockCalls (process_strm pX baseCtx baseEnv).2 ≠ [] ∧
      countSTAT .STMn (process_strm pX baseCtx baseEnv).2 = 1 := by
  decide

/-- C2 (amended): a strm s with an unknown codec byte (x, not in the
registry, pass-through configuration) and autostart 1 sends STMn, but
stream_sock is still called (with continue_on_error false) and STMc is
still sent; the failed negotiation only adds the trailing STMn. -/
theorem c2_unknown_codec (p : StrmPacket) (c : Ctx) (env : Env)
    (hc : p.command = 's') (hf : p.format = 'x') (ha : p.autostart = '1')
    (hh : ¬ p.header.length > MAX_HEADER - 1)
    (hflow : c.output.encode_flow = false) (hmode : c.config.mode.kind = .THRU)
    (hmime : env.find_mime 120 none = none) :
    countSTAT .STMn (process_strm p c env).2 = 1 ∧
      streamSockCalls (process_strm p c env).2 =
        [((if p.server_ip = 0 then c.slimproto_ip else p.server_ip), p.server_port, p.header,
          p.threshold * 1024, false)] ∧
      countSTAT .STMc (process_strm p c env).2 = 1 := by
  have hfail := ps_unknown_thru p.pcm_sample_rate p.pcm_sample_size p.pcm_channels
    p.pcm_endianness { c.output with
      next_replay_gain := p.replay_gain
      fade_mode := digitOf p.transition_type
      fade_secs := p.transition_period } c.render.index c.config env hflow hmode hmime
  have hdig : digitOf '1' = 1 := by decide
  have hfq : ('x' : Char) ≠ '?' := by decide
  refine ⟨?_, ?_, ?_⟩ <;>
    simp [process_strm, hc, hf, ha, hh, hfq, hdig, hfail, countSTAT,
      streamSockCalls_append, streamSockCalls_psmap, streamSockCalls, isSTAT,
      List.countP_append, List.countP_cons] <;>
    exact fun a _ => isSTAT_toAction _ a

/-- C2 witness: the amended theorem applied to the fixture packet. -/
theorem c2_witness :
    countSTAT .STMn (process_strm pX baseCtx baseEnv).2 = 1 ∧
      streamSockCalls (process_strm pX baseCtx baseEnv).2 =
        [(3232235521, 9000, [71, 69, 84], 10240, false)] ∧
      countSTAT .STMc (process_strm pX baseCtx baseEnv).2 = 1 := by
  have h := c2_unknown_codec pX baseCtx baseEnv rfl rfl rfl (by decide) rfl rfl rfl
  simpa using h

/- ------------------------------------------------------------------ -/
/- C3: flush idempotence of strm q and strm f.                         -/
/- ------------------------------------------------------------------ -/

/-- Concrete strm q packet. -/
def pQ : StrmPacket := { pX with command := 'q' }

/-- Concrete strm f packet. -/
def pF : StrmPacket := { pX with command := 'f' }

/-- C3 counterexample: from a state whose previous command already was q,
two consecutive strm q opcodes invoke SQ_STOP zero times, not exactly
once, refuting the claim for an arbitrary starting state. -/
theorem c3_counterexample :
    countStop ((run { baseCtx with last_command := 'q' }
        [Event.frame (.strm pQ) baseEnv, Event.frame (.strm pQ) baseEnv]).2) = 0 ∧
      countStop ((run { baseCtx with last_command := 'q' }
        [Event.frame (.strm pQ) baseEnv, Event.frame (.strm pQ) baseEnv]).2) ≠ 1 := by
  decide

/-- C3 (amended): two consecutive strm q opcodes invoke SQ_STOP exactly
once provided the command preceding them was not already q (otherwise
zero times); two consecutive strm f opcodes send STMf both times; and a
strm q always flushes the decoder, the output and the stream and zeroes
ms_played, like strm f. -/
theorem c3_flush_idempotence :
    (∀ (p1 p2 : StrmPacket) (c : Ctx) (e1 e2 : Env), p1.command = 'q' → p2.command = 'q' →
      c.last_command ≠ 'q' →
      countStop ((process_strm p1 c e1).2
        ++ (process_strm p2 (process_strm p1 c e1).1 e2).2) = 1) ∧
    (∀ (p1 p2 : StrmPacket) (c : Ctx) (e1 e2 : Env), p1.command = 'f' → p2.command = 'f' →
      countSTAT .STMf ((process_strm p1 c e1).2
        ++ (process_strm p2 (process_strm p1 c e1).1 e2).2) = 2) ∧
    (∀ (p : StrmPacket) (c : Ctx) (e : Env), p.command = 'q' →
      Action.decodeFlush ∈ (process_strm p c e).2 ∧
        Action.outputFlush ∈ (process_strm p c e).2 ∧
        Action.streamDisconnect ∈ (process_strm p c e).2 ∧
        Action.bufFlushStream ∈ (process_strm p c e).2 ∧
        (process_strm p c e).1.status.ms_played = 0) := by
  refine ⟨?_, ?_, ?_⟩
  · intro p1 p2 c e1 e2 h1 h2 hq
    simp [process_strm, h1, h2, hq, countStop, List.countP_append, List.countP_cons]
    split_ifs <;> simp
  · intro p1 p2 c e1 e2 h1 h2
    simp [process_strm, h1, h2, countSTAT, isSTAT, List.countP_append, List.countP_cons]
  · intro p c e h
    simp [process_strm, h]

/-- C3 witness: the amended theorem applied to concrete packets and the
neutral starting state. -/
theorem c3_witness :
    countStop ((process_strm pQ baseCtx baseEnv).2
        ++ (process_strm pQ (process_strm pQ baseCtx baseEnv).1 baseEnv).2) = 1 ∧
      countSTAT .STMf ((process_strm pF baseCtx baseEnv).2
        ++ (process_strm pF (process_strm pF baseCtx baseEnv).1 baseEnv).2) = 2 ∧
      Action.decodeFlush ∈ (process_strm pQ baseCtx baseEnv).2 := by
  refine ⟨?_, ?_, ?_⟩
  · exact c3_flush_idempotence.1 pQ pQ baseCtx baseEnv baseEnv rfl rfl (by decide)
  · exact c3_flush_idempotence.2.1 pF pF baseCtx baseEnv baseEnv rfl rfl
  · exact (c3_flush_idempotence.2.2 pQ baseCtx baseEnv rfl).1

/- ------------------------------------------------------------------ -/
/- Projection lemmas for the ticker stages.                            -/
/- ------------------------------------------------------------------ -/

/-- The STMs branch does not change output.completed. -/
theorem tkOut1_completed (c : Ctx) : (tkOut1 c).completed = c.output.completed := by
  unfold tkOut1
  split <;> rfl

/-- The STMs branch does not change output.state. -/
theorem tkOut1_state (c : Ctx) : (tkOut1 c).state = c.output.state := by
  unfold tkOut1
  split <;> rfl

/-- The STMs branch does not change output.remote. -/
theorem tkOut1_remote (c : Ctx) : (tkOut1 c).remote = c.output.remote := by
  unfold tkOut1
  split <;> rfl

/-- The STMs branch does not change encode.flow. -/
theorem tkOut1_flow (c : Ctx) : (tkOut1 c).encode_flow = c.output.encode_flow := by
  unfold tkOut1
  split <;> rfl

/-- After the STMs branch track_started is always clear. -/
theorem tkOut1_track (c : Ctx) : (tkOut1 c).track_started = false := by
  unfold tkOut1
  split
  · rfl
  · rename_i h
    simpa [fStms] using h

/-- The STMu branch does not change output.remote. -/
theorem tkOut2_remote (c : Ctx) : (tkOut2 c).remote = c.output.remote := by
  unfold tkOut2
  split <;> simp [tkOut1_remote]

/-- The STMu branch only ever clears encode.flow. -/
theorem tkOut2_flow_mono (c : Ctx) :
    (tkOut2 c).encode_flow = true → c.output.encode_flow = true := by
  unfold tkOut2
  split <;> simp [tkOut1_flow]

/-- The STMu branch does not change track_started. -/
theorem tkOut2_track (c : Ctx) : (tkOut2 c).track_started = (tkOut1 c).track_started := by
  unfold tkOut2
  split <;> rfl

/-- The STMo branch only changes output.state. -/
theorem tkOut3_remote (c : Ctx) : (tkOut3 c).remote = (tkOut2 c).remote := by
  unfold tkOut3
  split <;> rfl

/-- The STMo branch does not change encode.flow. -/
theorem tkOut3_flow (c : Ctx) : (tkOut3 c).encode_flow = (tkOut2 c).encode_flow := by
  unfold tkOut3
  split <;> rfl

/-- The STMo branch does not change track_started. -/
theorem tkOut3_track (c : Ctx) : (tkOut3 c).track_started = (tkOut2 c).track_started := by
  unfold tkOut3
  split <;> rfl

/-- The loaded branch only changes output.state. -/
theorem tkOut4_remote (c : Ctx) : (tkOut4 c).remote = c.output.remote := by
  unfold tkOut4
  split <;> simp [tkOut3_remote, tkOut2_remote]

/-- The loaded branch does not change encode.flow. -/
theorem tkOut4_flow (c : Ctx) : (tkOut4 c).encode_flow = (tkOut2 c).encode_flow := by
  unfold tkOut4
  split <;> simp [tkOut3_flow]

/-- Flow can only be cleared inside a tick. -/
theorem tkOut4_flow_mono (c : Ctx) :
    (tkOut4 c).encode_flow = true → c.output.encode_flow = true := by
  rw [tkOut4_flow]
  exact tkOut2_flow_mono c

/-- track_started is clear at the end of every tick. -/
theorem tkOut4_track (c : Ctx) : (tkOut4 c).track_started = false := by
  unfold tkOut4
  split <;> simp [tkOut3_track, tkOut2_track, tkOut1_track]

/-- The streaming-failure flag in terms of the pre-tick state. -/
theorem fFail_eq (c : Ctx) :
    fFail c = (decide (c.stream.bytes = 0) && c.output.completed &&
      decide (c.output.state = OutputState.RUNNING)) := by
  unfold fFail
  rw [tkOut1_completed, tkOut1_state]

/-- The canSTMdu gate at decision time, in terms of the pre-tick state. -/
theorem tkCan2_eq (c : Ctx) :
    tkCan2 c = (fFail c || c.output.track_started || c.canSTMdu) := by
  simp [tkCan2, tkCan1, fStms, Bool.or_assoc]

/-- The decoder is COMPLETE at the STMd decision only when it was COMPLETE
before the tick. -/
theorem tkDec1_complete (c : Ctx) :
    tkDec1 c = .COMPLETE → c.decode_state = .COMPLETE := by
  unfold tkDec1
  split
  · intro h
    exact absurd h (by simp)
  · exact fun h => h

/- ------------------------------------------------------------------ -/
/- C5: the STMd gate.                                                  -/
/- ------------------------------------------------------------------ -/

/-- Membership in an interleaving of flagged singletons. -/
theorem mem_buildOpt {x : Action} {L : List (Bool × Action)} :
    x ∈ buildOpt L ↔ ∃ p, p ∈ L ∧ p.1 = true ∧ p.2 = x := by
  induction L with
  | nil => simp [buildOpt]
  | cons q r ih =>
    rcases q with ⟨b, a⟩
    cases b <;> simp [buildOpt, ih] <;> aesop

/-- The locked phase of a tick contains no wire send. -/
theorem tickLocked_no_send (c : Ctx) : ∀ a ∈ tickLocked c, isWireSend a = false := by
  intro a ha
  unfold tickLocked at ha
  split_ifs at ha <;> simp at ha <;> casesm* _ ∨ _ <;> subst_vars <;> rfl

/-- A tick emits STMd exactly when the fStmd flag is set. -/
theorem stmd_mem_tick (c : Ctx) (env : Env) :
    Action.sendSTAT .STMd 0 ∈ (tick c env).2 ↔ fStmd c = true := by
  constructor
  · intro h
    rcases List.mem_append.mp h with h | h
    · have := tickLocked_no_send c _ h
      simp [isWireSend] at this
    · rw [tickSends, mem_buildOpt] at h
      obtain ⟨p, hp, hb, hx⟩ := h
      simp [tickSendPieces] at hp
      rcases hp with h1 | h1 | h1 | h1 | h1 | h1 | h1 | h1 | h1 | h1 <;> subst h1 <;>
        simp_all
  · intro h
    apply List.mem_append.mpr
    right
    rw [tickSends, mem_buildOpt]
    exact ⟨(fStmd c, Action.sendSTAT .STMd 0), by simp [tickSendPieces], h, rfl⟩

/-- C5: the ticker emits STMd only when the decoder is COMPLETE, the
canSTMdu gate holds at decision time (the pre-tick latch, or armed in the
same tick by track_started or the streaming-failure branch), the output is
ready, and flow mode is active or the source is local or the remaining
duration is below STREAM_DELAY; in particular a remote source in non-flow
mode with duration 300000 and ms_played 10000 never gets STMd. -/
theorem c5_stmd_gate (c : Ctx) (env : Env) :
    (Action.sendSTAT .STMd 0 ∈ (tick c env).2 →
      c.decode_state = .COMPLETE ∧
        (c.canSTMdu = true ∨ c.output.track_started = true ∨
          (c.stream.bytes = 0 ∧ c.output.completed = true ∧ c.output.state = .RUNNING)) ∧
        (c.output.completed = true ∨ c.output.encode_flow = true) ∧
        (c.output.encode_flow = true ∨ c.output.remote = false ∨
          (c.render.duration ≠ 0 ∧
            u32sub c.render.duration c.render.ms_played < STREAM_DELAY))) ∧
    (c.output.remote = true → c.output.encode_flow = false → c.render.duration = 300000 →
      c.render.ms_played = 10000 → Action.sendSTAT .STMd 0 ∉ (tick c env).2) := by
  constructor
  · intro hmem
    have h := (stmd_mem_tick c env).mp hmem
    unfold fStmd at h
    have hcond := (Bool.and_eq_true _ _).mp h
    have hdec : c.decode_state = .COMPLETE := tkDec1_complete c (by simpa using hcond.2)
    have hdc := hcond.1
    unfold fStmdCond at hdc
    rcases (Bool.or_eq_true _ _).mp hdc with hmain | herr
    · simp only [Bool.and_eq_true] at hmain
      obtain ⟨⟨⟨_, hcan⟩, hready⟩, hgate⟩ := hmain
      refine ⟨hdec, ?_, ?_, ?_⟩
      · rw [tkCan2_eq] at hcan
        rw [fFail_eq] at hcan
        simp at hcan
        rcases hcan with (⟨⟨hb, hcmp⟩, hst⟩ | hc1) | hc1
        · exact Or.inr (Or.inr ⟨hb, hcmp, hst⟩)
        · exact Or.inr (Or.inl hc1)
        · exact Or.inl hc1
      · unfold outputReady at hready
        simpa using hready
      · rcases (Bool.or_eq_true _ _).mp hgate with hg | hg
        · rcases (Bool.or_eq_true _ _).mp hg with hg1 | hg1
          · exact Or.inl (tkOut4_flow_mono c hg1)
          · refine Or.inr (Or.inl ?_)
            rw [tkOut4_remote] at hg1
            simpa using hg1
        · simp at hg
          exact Or.inr (Or.inr hg)
    · exfalso
      have h2 : tkDec1 c = .COMPLETE := by simpa using hcond.2
      rw [h2] at herr
      simp at herr
  · intro hrem hflow hdur hms hmem
    have h := (stmd_mem_tick c env).mp hmem
    have hf4 : (tkOut4 c).encode_flow = false := by
      rcases hx : (tkOut4 c).encode_flow
      · rfl
      · exact absurd (tkOut4_flow_mono c hx) (by simp [hflow])
    have hr4 : (tkOut4 c).remote = true := by rw [tkOut4_remote, hrem]
    unfold fStmd fStmdCond at h
    cases hdec1 : tkDec1 c <;>
      simp [hdec1, hf4, hr4, hdur, hms, u32sub, STREAM_DELAY] at h


/-- Concrete state in which the STMd gate fires: local source, decoder
complete, output completed, canSTMdu armed. -/
def cStmd : Ctx := { baseCtx with
  decode_state := .COMPLETE
  canSTMdu := true
  output := { baseOut with completed := true } }

/-- Concrete state of the claim instance: remote source, non-flow,
duration 300000 ms and ms_played 10000 ms. -/
def cRemote : Ctx := { baseCtx with
  decode_state := .COMPLETE
  canSTMdu := true
  output := { baseOut with completed := true, remote := true }
  render := { baseRender with duration := 300000, ms_played := 10000 } }

/-- C5 witness: the gate theorem applied at a state that does emit STMd
(local source, decoder complete, gate armed) and at the remote instance
from the claim. -/
theorem c5_witness :
    (Action.sendSTAT .STMd 0 ∈ (tick cStmd baseEnv).2 ∧ cStmd.decode_state = .COMPLETE ∧
      (cStmd.output.completed = true ∨ cStmd.output.encode_flow = true)) ∧
    Action.sendSTAT .STMd 0 ∉ (tick cRemote baseEnv).2 := by
  constructor
  · have hmem : Action.sendSTAT .STMd 0 ∈ (tick cStmd baseEnv).2 := by decide
    have h := (c5_stmd_gate cStmd baseEnv).1 hmem
    exact ⟨hmem, h.1, h.2.2.1⟩
  · exact (c5_stmd_gate cRemote baseEnv).2 rfl rfl rfl rfl

/- ------------------------------------------------------------------ -/
/- C6: fixed emission order, sends after the locks.                    -/
/- ------------------------------------------------------------------ -/

/-- The interleaving of flagged singletons is the projection of the
selected pieces. -/
theorem buildOpt_eq (L : List (Bool × Action)) :
    buildOpt L = (L.filter (fun p => p.1)).map Prod.snd := by
  induction L with
  | nil => rfl
  | cons q r ih =>
    rcases q with ⟨b, a⟩
    cases b <;> simp [buildOpt, ih, List.filter_cons]

/-- Every action of the send phase is a wire send. -/
theorem tickSends_all_wire (c : Ctx) (env : Env) :
    ∀ a ∈ tickSends c env, isWireSend a = true := by
  intro a ha
  rw [tickSends, mem_buildOpt] at ha
  obtain ⟨p, hp, _, hx⟩ := ha
  subst hx
  simp [tickSendPieces] at hp
  casesm* _ ∨ _ <;> subst_vars <;> rfl

/-- The snd projection of the send-piece table is rank sorted. -/
theorem pieces_rank_sorted (c : Ctx) (env : Env) :
    List.Pairwise (fun a b => sendRank a < sendRank b)
      ((tickSendPieces c env).map Prod.snd) := by
  simp [tickSendPieces, List.pairwise_cons, sendRank]

/-- Sum of the lock-depth changes of an action list. -/
def deltaSum (l : List Action) : Int := (l.map lockDelta).sum

/-- Walking sendsUnlocked through a send-free block adds its lock-depth
change. -/
theorem sendsUnlocked_append_nosend (l r : List Action) (h : Int)
    (hl : ∀ a ∈ l, isWireSend a = false) :
    sendsUnlocked (l ++ r) h = sendsUnlocked r (h + deltaSum l) := by
  induction l generalizing h with
  | nil => simp [deltaSum]
  | cons a l ih =>
    have ha : isWireSend a = false := hl a (by simp)
    have hl2 : ∀ b ∈ l, isWireSend b = false := fun b hb => hl b (by simp [hb])
    simp only [List.cons_append, sendsUnlocked, ha, Bool.false_eq_true, if_false]
    rw [List.append_eq, ih _ hl2]
    have : h + lockDelta a + deltaSum l = h + deltaSum (a :: l) := by
      simp [deltaSum]
      ring
    rw [this]

/-- The locked phase is lock balanced. -/
theorem deltaSum_tickLocked (c : Ctx) : deltaSum (tickLocked c) = 0 := by
  unfold tickLocked
  split_ifs <;> simp [deltaSum, lockDelta]

/-- A block of wire sends passes the unlocked check at depth zero. -/
theorem sendsUnlocked_all_sends (l : List Action) (hl : ∀ a ∈ l, isWireSend a = true) :
    sendsUnlocked l 0 = true := by
  induction l with
  | nil => rfl
  | cons a r ih =>
    have ha : isWireSend a = true := hl a (by simp)
    have hr : ∀ b ∈ r, isWireSend b = true := fun b hb => hl b (by simp [hb])
    simp [sendsUnlocked, ha, ih hr]

/-- C6: in one ticker invocation the emitted wire sends appear in the
fixed order DSCO, STMs, STMt, STMl, STMd, STMu, STMo, STMn, RESP, META
(strictly increasing rank), and every send happens after all three lock
sections have completed, with no lock held. -/
theorem c6_send_order (c : Ctx) (env : Env) :
    List.Pairwise (fun a b => sendRank a < sendRank b)
        (((tick c env).2).filter isWireSend) ∧
      sendsUnlocked (tick c env).2 0 = true := by
  constructor
  · have hfl : ((tick c env).2).filter isWireSend = tickSends c env := by
      have h1 : (tickLocked c).filter isWireSend = [] := by
        rw [List.filter_eq_nil_iff]
        intro a ha
        simp [tickLocked_no_send c a ha]
      have h2 : (tickSends c env).filter isWireSend = tickSends c env := by
        rw [List.filter_eq_self]
        exact tickSends_all_wire c env
      simp [tick, List.filter_append, h1, h2]
    rw [hfl, tickSends, buildOpt_eq]
    exact List.Pairwise.sublist (List.Sublist.map Prod.snd (List.filter_sublist _))
      (pieces_rank_sorted c env)
  · have h1 : ∀ a ∈ tickLocked c, isWireSend a = false := tickLocked_no_send c
    simp only [tick]
    rw [sendsUnlocked_append_nosend _ _ 0 h1, deltaSum_tickLocked]
    simpa using sendsUnlocked_all_sends _ (tickSends_all_wire c env)

/- ------------------------------------------------------------------ -/
/- C1 infrastructure: trace predicates and action-list lemmas.         -/
/- ------------------------------------------------------------------ -/

/-- Test for a dispatched strm s frame. -/
def isStrmS : Frame → Bool
  | .strm p => decide (p.command = 's')
  | _ => false

/-- Test for a strm s event. -/
def isStrmSEv : Event → Bool
  | .frame f _ => isStrmS f
  | _ => false

/-- Number of track_started raises performed by the collaborator threads
in a trace. -/
def raiseCount (evs : List Event) : Nat :=
  evs.countP (fun e => match e with | .ext u => u.trackStarted | _ => false)

/-- Check that no ticker invocation of the trace runs with the
streaming-failure condition (zero stream bytes while the output completed
in RUNNING state) true. -/
def noStreamFailure (c : Ctx) : List Event → Bool
  | [] => true
  | e :: es =>
    (match e with | .tick _ => !fFail c | _ => true) && noStreamFailure (step c e).1 es

/-- Splitting of the STMs-precedence walk over an append. -/
theorem stmsPrecedesAux_append (s : Bool) (l1 l2 : List Action) :
    stmsPrecedesAux s (l1 ++ l2) =
      (stmsPrecedesAux s l1 && stmsPrecedesAux (s || l1.any (isSTAT .STMs)) l2) := by
  induction l1 generalizing s with
  | nil => simp [stmsPrecedesAux]
  | cons a r ih =>
    by_cases hd : (isDUO a && !s) = true
    · simp [stmsPrecedesAux, hd]
    · simp only [List.cons_append, stmsPrecedesAux, hd, if_false, Bool.false_eq_true]
      rw [List.append_eq, ih]
      simp [List.any_cons, Bool.or_assoc]

/-- A list with no STMd/STMu/STMo send passes the precedence walk. -/
theorem noDUO_aux (l : List Action) (h : ∀ a ∈ l, isDUO a = false) (s : Bool) :
    stmsPrecedesAux s l = true := by
  induction l generalizing s with
  | nil => rfl
  | cons a r ih =>
    have ha := h a (by simp)
    simp [stmsPrecedesAux, ha]
    exact ih (fun b hb => h b (by simp [hb])) _

/-- STMd, STMu and STMo are wire sends. -/
theorem isDUO_wire (a : Action) : isDUO a = true → isWireSend a = true := by
  cases a <;> simp [isDUO, isSTAT, isWireSend]

/-- A STAT send is a wire send. -/
theorem isSTAT_wire (e : StatEvent) (a : Action) : isSTAT e a = true → isWireSend a = true := by
  cases a <;> simp [isSTAT, isWireSend]

/-- Negotiator actions are neither STMd/STMu/STMo nor STMs. -/
theorem isDUO_toAction (a : PSAct) : isDUO a.toAction = false := by
  cases a <;> rfl

/-- Count of the selected singletons matching a predicate. -/
theorem countP_opt (p : Action → Bool) (b : Bool) (x : Action) :
    (if b then [x] else []).countP p = if b && p x then 1 else 0 := by
  cases b <;> simp [List.countP_cons]

/-- A tick emits STMs exactly when track_started was observed. -/
theorem tick_countSTMs (c : Ctx) (env : Env) :
    countSTAT .STMs (tick c env).2 = (fStms c).toNat := by
  have h1 : countSTAT .STMs (tickLocked c) = 0 := by
    rw [countSTAT, List.countP_eq_zero]
    intro a ha
    have := tickLocked_no_send c a ha
    intro hs
    rw [isSTAT_wire _ _ hs] at this
    exact Bool.true_eq_false.mp this
  have h2 : countSTAT .STMs (tickSends c env) = (fStms c).toNat := by
    unfold tickSends tickSendPieces
    simp [buildOpt, countSTAT, List.countP_append, countP_opt, isSTAT]
    cases fStms c <;> simp
  simp only [tick, countSTAT, List.countP_append]
  rw [← countSTAT, ← countSTAT, h1, h2, Nat.zero_add]

/-- The locked phase contains no STMs send. -/
theorem tickLocked_no_stms (c : Ctx) : (tickLocked c).any (isSTAT .STMs) = false := by
  rw [List.any_eq_false]
  intro a ha
  have := tickLocked_no_send c a ha
  intro hs
  rw [isSTAT_wire _ _ hs] at this
  exact Bool.true_eq_false.mp this

/-- When track_started fired, the send phase contains the STMs send. -/
theorem stms_mem_sends (c : Ctx) (env : Env) (h : fStms c = true) :
    (tickSends c env).any (isSTAT .STMs) = true := by
  rw [List.any_eq_true]
  refine ⟨Action.sendSTAT .STMs 0, ?_, by simp [isSTAT]⟩
  rw [tickSends, mem_buildOpt]
  exact ⟨(fStms c, Action.sendSTAT .STMs 0), by simp [tickSendPieces], h, rfl⟩

/-- STMu requires the canSTMdu gate. -/
theorem fStmu_can (c : Ctx) : fStmu c = true → tkCan2 c = true := by
  intro h
  simp only [fStmu, Bool.and_eq_true] at h
  exact h.2

/-- STMo requires the canSTMdu gate. -/
theorem fStmo_can (c : Ctx) : fStmo c = true → tkCan2 c = true := by
  intro h
  simp only [fStmo, Bool.and_eq_true] at h
  exact h.2

/-- STMd requires the canSTMdu gate. -/
theorem fStmd_can (c : Ctx) : fStmd c = true → tkCan2 c = true := by
  intro h
  simp only [fStmd, Bool.and_eq_true, decide_eq_true_eq] at h
  obtain ⟨hcond, hdec⟩ := h
  simp only [fStmdCond, Bool.or_eq_true, Bool.and_eq_true, decide_eq_true_eq] at hcond
  rcases hcond with hmain | herr
  · exact hmain.1.1.2
  · rw [hdec] at herr
    exact absurd herr (by simp)

/-- ps_finish does not touch track_started. -/
theorem ps_finish_track (mt : Option (List Nat)) (out : OutputCtx) (cfg : Config) (env : Env)
    (acts : List PSAct) : (ps_finish mt out cfg env acts).1.track_started = out.track_started := by
  cases mt <;> simp [ps_finish] <;> split_ifs <;> rfl

/-- The format negotiator does not touch track_started. -/
theorem ps_track (f r sz ch e : Char) (out : OutputCtx) (ri : Int) (cfg : Config) (env : Env) :
    (process_start f r sz ch e out ri cfg env).1.track_started = out.track_started := by
  simp [process_start, ps_finish_track,
    apply_ite (fun x : OutputCtx × List PSAct × Bool => x.1.track_started)]

/-- Test for an action that is an STMd, STMu, STMo or STMs send. -/
def notCleanB (a : Action) : Bool := isDUO a || isSTAT .STMs a

/-- Negotiator actions are none of the four latched sends. -/
theorem notCleanB_toAction (x : PSAct) : notCleanB x.toAction = false := by
  cases x <;> rfl

/-- No opcode handler emits STMd, STMu, STMo or STMs. -/
theorem frame_clean_count (f : Frame) (c : Ctx) (env : Env) :
    (processFrame f c env).2.countP notCleanB = 0 := by
  cases f <;>
    simp [processFrame, process_strm, process_cont, process_codc, process_aude, process_audg,
      process_setd, process_serv, List.countP_append, List.countP_cons, countP_opt,
      notCleanB, isDUO, isSTAT,
      apply_ite (fun x : Ctx × List Action => x.2),
      apply_ite (List.countP notCleanB)] <;>
    (intros
     rename_i a ha
     simpa [notCleanB, isDUO, isSTAT] using notCleanB_toAction a)

/-- Pointwise form of the handler cleanliness. -/
theorem frame_clean (f : Frame) (c : Ctx) (env : Env) :
    ∀ a ∈ (processFrame f c env).2, isDUO a = false ∧ isSTAT .STMs a = false := by
  intro a ha
  have h0 := frame_clean_count f c env
  rw [List.countP_eq_zero] at h0
  have h1 := h0 a ha
  simp [notCleanB] at h1
  exact h1

/-- No opcode handler changes track_started. -/
theorem frame_track (f : Frame) (c : Ctx) (env : Env) :
    (processFrame f c env).1.output.track_started = c.output.track_started := by
  cases f <;>
    simp [processFrame, process_strm, process_cont, process_codc, process_aude, process_audg,
      process_setd, process_serv, resetLatches, ps_track,
      apply_ite (fun x : Ctx × List Action => x.1.output.track_started),
      apply_ite (fun x : Ctx => x.output.track_started)]

/-- A handler other than strm s does not change the canSTMdu latch. -/
theorem frame_can (f : Frame) (c : Ctx) (env : Env) (hf : isStrmS f = false) :
    (processFrame f c env).1.canSTMdu = c.canSTMdu := by
  cases f <;>
    simp [processFrame, process_cont, process_codc, process_aude, process_audg,
      process_setd, process_serv,
      apply_ite (fun x : Ctx × List Action => x.1.canSTMdu),
      apply_ite (fun x : Ctx => x.canSTMdu)]
  case strm p =>
    have hp : ¬ p.command = 's' := by simpa [isStrmS] using hf
    simp [process_strm, hp, apply_ite (fun x : Ctx × List Action => x.1.canSTMdu),
      apply_ite (fun x : Ctx => x.canSTMdu)]

/-- The precedence walk skips a flagged singleton that is neither a
latched send nor STMs. -/
theorem aux_skip_append (s b : Bool) (x : Action) (rest : List Action)
    (h1 : isDUO x = false) (h2 : isSTAT .STMs x = false) :
    stmsPrecedesAux s ((if b then [x] else []) ++ rest) = stmsPrecedesAux s rest := by
  cases b <;> simp [stmsPrecedesAux, h1, h2]

/-- The precedence walk through the flagged STMs singleton records it. -/
theorem aux_stms_append (s b : Bool) (rest : List Action) :
    stmsPrecedesAux s ((if b then [Action.sendSTAT .STMs 0] else []) ++ rest) =
      stmsPrecedesAux (s || b) rest := by
  cases b <;> simp [stmsPrecedesAux, isDUO, isSTAT]

/-- The precedence walk through a flagged STMd/STMu/STMo singleton demands
an earlier STMs. -/
theorem aux_duo_append (s b : Bool) (x : Action) (rest : List Action)
    (h1 : isDUO x = true) (h2 : isSTAT .STMs x = false) :
    stmsPrecedesAux s ((if b then [x] else []) ++ rest) =
      ((!b || s) && stmsPrecedesAux s rest) := by
  cases b <;> cases s <;> simp [stmsPrecedesAux, h1, h2]

/-- The send phase of a tick is STMs ordered whenever each of the three
latched sends implies that STMs was already seen or fires in this tick. -/
theorem tick_sends_precede (c : Ctx) (env : Env) (s : Bool)
    (h : (fStmd c || fStmu c || fStmo c) = true → (s || fStms c) = true) :
    stmsPrecedesAux s (tickSends c env) = true := by
  unfold tickSends tickSendPieces
  simp only [buildOpt]
  rw [aux_skip_append _ _ _ _ (by rfl) (by rfl)]
  rw [aux_stms_append]
  rw [aux_skip_append _ _ _ _ (by rfl) (by rfl)]
  rw [aux_skip_append _ _ _ _ (by rfl) (by rfl)]
  rw [aux_duo_append _ _ _ _ (by rfl) (by rfl)]
  rw [aux_duo_append _ _ _ _ (by rfl) (by rfl)]
  rw [aux_duo_append _ _ _ _ (by rfl) (by rfl)]
  rw [aux_skip_append _ _ _ _ (by rfl) (by rfl)]
  rw [aux_skip_append _ _ _ _ (by rfl) (by rfl)]
  rw [aux_skip_append _ _ _ _ (by rfl) (by rfl)]
  cases hd : fStmd c <;> cases hu : fStmu c <;> cases ho : fStmo c <;>
    simp_all [stmsPrecedesAux]

/-- Step invariant: a trace without strm s, starting with the STMs-seen
flag covering canSTMdu, keeps every STMd/STMu/STMo send behind an STMs. -/
theorem run_precedes (evs : List Event) : ∀ (c : Ctx) (acc : Bool),
    (∀ e ∈ evs, isStrmSEv e = false) →
    noStreamFailure c evs = true →
    (c.canSTMdu = true → acc = true) →
    stmsPrecedesAux acc (run c evs).2 = true := by
  induction evs with
  | nil =>
    intro c acc _ _ _
    rfl
  | cons e es ih =>
    intro c acc hs hfail hacc
    have hs1 : isStrmSEv e = false := hs e (by simp)
    have hs2 : ∀ x ∈ es, isStrmSEv x = false := fun x hx => hs x (by simp [hx])
    have hfail2 : noStreamFailure (step c e).1 es = true := by
      unfold noStreamFailure at hfail
      exact ((Bool.and_eq_true _ _).mp hfail).2
    simp only [run]
    rw [stmsPrecedesAux_append]
    apply (Bool.and_eq_true _ _).mpr
    cases e with
    | ext u =>
      refine ⟨rfl, ?_⟩
      apply ih _ _ hs2 hfail2
      intro hc
      simp only [step, applyExt] at hc
      simp [hacc hc]
    | frame f env =>
      have hclean := frame_clean f c env
      constructor
      · exact noDUO_aux _ (fun a ha => (hclean a ha).1) _
      · apply ih _ _ hs2 hfail2
        intro hc
        rw [step, frame_can f c env (by simpa [isStrmSEv] using hs1)] at hc
        rw [hacc hc]
        simp
    | tick env =>
      have hnf : fFail c = false := by
        unfold noStreamFailure at hfail
        have := ((Bool.and_eq_true _ _).mp hfail).1
        simpa using this
      have hduo : (fStmd c || fStmu c || fStmo c) = true → (acc || fStms c) = true := by
        intro hd
        have hcan : tkCan2 c = true := by
          rcases (Bool.or_eq_true _ _).mp hd with hd1 | hd1
          · rcases (Bool.or_eq_true _ _).mp hd1 with hd2 | hd2
            · exact fStmd_can c hd2
            · exact fStmu_can c hd2
          · exact fStmo_can c hd1
        rw [tkCan2_eq, hnf] at hcan
        simp only [Bool.false_or, Bool.or_eq_true] at hcan
        rcases hcan with ht | hc
        · simp [fStms, ht]
        · simp [hacc hc]
      constructor
      · show stmsPrecedesAux acc (tick c env).2 = true
        simp only [tick]
        rw [stmsPrecedesAux_append]
        apply (Bool.and_eq_true _ _).mpr
        refine ⟨noDUO_aux _ ?_ _, ?_⟩
        · intro a ha
          rcases hda : isDUO a
          · rfl
          · have := tickLocked_no_send c a ha
            rw [isDUO_wire a hda] at this
            exact absurd this (by simp)
        · rw [tickLocked_no_stms, Bool.or_false]
          exact tick_sends_precede c env acc hduo
      · apply ih _ _ hs2 hfail2
        intro hc
        have hcan : tkCan2 c = true := by
          simpa [step, tick, tickCtx] using hc
        rw [tkCan2_eq, hnf] at hcan
        simp only [Bool.false_or, Bool.or_eq_true] at hcan
        simp only [step, tick, List.any_append]
        rcases hcan with ht | hcdu
        · rw [stms_mem_sends c env (by simpa [fStms] using ht)]
          simp
        · rw [hacc hcdu]
          simp

/-- The controller state after a tick has track_started clear. -/
theorem tick_clears_track (c : Ctx) (env : Env) :
    (tick c env).1.output.track_started = false := by
  simp [tick, tickCtx, tkOut4_track]

/-- Bound of the or on toNat. -/
theorem toNat_or_le (a b : Bool) : (a || b).toNat ≤ a.toNat + b.toNat := by
  cases a <;> cases b <;> simp

/-- Step invariant: emitted STMs sends plus the pending track_started flag
are bounded by the initial flag plus the track_started raises. -/
theorem run_stms_count (evs : List Event) : ∀ c : Ctx,
    countSTAT .STMs (run c evs).2 + ((run c evs).1.output.track_started).toNat ≤
      (c.output.track_started).toNat + raiseCount evs := by
  induction evs with
  | nil =>
    intro c
    simp [run, countSTAT, raiseCount]
  | cons e es ih =>
    intro c
    have hstep : countSTAT .STMs (run c (e :: es)).2 =
        countSTAT .STMs (step c e).2 + countSTAT .STMs (run (step c e).1 es).2 := by
      simp [run, countSTAT, List.countP_append]
    have hr : (run c (e :: es)).1 = (run (step c e).1 es).1 := by
      simp [run]
    rw [hstep, hr]
    have ihs := ih (step c e).1
    cases e with
    | ext u =>
      have h0 : countSTAT .STMs (step c (.ext u)).2 = 0 := by
        simp [step, countSTAT]
      have htr : (step c (.ext u)).1.output.track_started =
          (c.output.track_started || u.trackStarted) := by
        simp [step, applyExt]
      have hrc : raiseCount (Event.ext u :: es) = raiseCount es + (u.trackStarted).toNat := by
        cases hu : u.trackStarted <;> simp [raiseCount, List.countP_cons, hu]
      rw [h0, hrc]
      rw [htr] at ihs
      have hor := toNat_or_le c.output.track_started u.trackStarted
      omega
    | frame f env =>
      have h0 : countSTAT .STMs (step c (.frame f env)).2 = 0 := by
        rw [step, countSTAT, List.countP_eq_zero]
        intro a ha
        simp [(frame_clean f c env a ha).2]
      have htr : (step c (.frame f env)).1.output.track_started = c.output.track_started := by
        rw [step]
        exact frame_track f c env
      have hrc : raiseCount (Event.frame f env :: es) = raiseCount es := by
        simp [raiseCount, List.countP_cons]
      rw [h0, hrc]
      rw [htr] at ihs
      omega
    | tick env =>
      have h0 : countSTAT .STMs (step c (.tick env)).2 = (c.output.track_started).toNat := by
        rw [step]
        rw [tick_countSTMs]
        rfl
      have htr : (step c (.tick env)).1.output.track_started = false := by
        rw [step]
        exact tick_clears_track c env
      have hrc : raiseCount (Event.tick env :: es) = raiseCount es := by
        simp [raiseCount, List.countP_cons]
      rw [h0, hrc]
      rw [htr] at ihs
      simp only [Bool.toNat_false] at ihs
      omega

/- ------------------------------------------------------------------ -/
/- C1: STMs once per track and before STMd/STMu/STMo.                  -/
/- ------------------------------------------------------------------ -/

/-- Concrete state of the streaming-failure path (comment at line 655):
the stream delivered zero bytes, the output thread completed while
RUNNING, rendering still marked in progress, and no STMs was ever sent
for the track (canSTMdu is false, track_started never fired). -/
def cFail : Ctx := { baseCtx with
  output := { baseOut with state := .RUNNING, completed := true }
  render := { baseRender with state := .RD_PLAYING } }

/-- External update that only raises track_started. -/
def extRaise : ExtUpdate :=
  { streamState := none, streamBytes := none, streamDisc := none, sentHeaders := none,
    header := none, metaSend := none, decodeState := none, outputCompleted := none,
    trackStarted := true, renderState := none, duration := none, msPlayed := none }

/-- C1 counterexample: on the streaming-failure path a single ticker
invocation emits STMu (and STMn) although no STMs was ever emitted for
the track, refuting the claimed unconditional STMs-before-STMu ordering. -/
theorem c1_counterexample :
    stmsPrecedes (run cFail [Event.tick baseEnv]).2 = false ∧
      countSTAT .STMu (run cFail [Event.tick baseEnv]).2 = 1 ∧
      countSTAT .STMs (run cFail [Event.tick baseEnv]).2 = 0 ∧
      countSTAT .STMn (run cFail [Event.tick baseEnv]).2 = 1 := by
  decide

/-- C1 (amended): along any controller trace that lies between two strm s
commands (no strm s event inside), if the collaborator threads raise
track_started at most once and the streaming-failure branch (zero stream
bytes with the output completed while RUNNING) never fires at a tick,
then starting from a freshly reset state (track_started clear, canSTMdu
still false) at most one STMs is emitted, and every STMd, STMu or STMo
send is preceded by an STMs send. On the streaming-failure path the
ordering does not hold (see the counterexample): there STMu or STMd can
be emitted without any STMs, accompanied by STMn. -/
theorem c1_stm_order (c0 : Ctx) (evs : List Event)
    (hs : ∀ e ∈ evs, isStrmSEv e = false)
    (hts : c0.output.track_started = false)
    (hraise : raiseCount evs ≤ 1)
    (hcan : c0.canSTMdu = false)
    (hfail : noStreamFailure c0 evs = true) :
    countSTAT .STMs (run c0 evs).2 ≤ 1 ∧ stmsPrecedes (run c0 evs).2 = true := by
  constructor
  · have h := run_stms_count evs c0
    rw [hts] at h
    simp only [Bool.toNat_false, Nat.zero_add] at h
    omega
  · exact run_precedes evs c0 false hs hfail (fun h => absurd h (by simp [hcan]))

/-- C1 witness: the amended theorem applied to a track segment in which
track_started fires once and the next tick emits the STMs. -/
theorem c1_witness :
    countSTAT .STMs (run baseCtx [Event.ext extRaise, Event.tick baseEnv]).2 ≤ 1 ∧
      stmsPrecedes (run baseCtx [Event.ext extRaise, Event.tick baseEnv]).2 = true := by
  apply c1_stm_order baseCtx [Event.ext extRaise, Event.tick baseEnv]
  · intro e he
    simp at he
    rcases he with rfl | rfl <;> rfl
  · rfl
  · decide
  · rfl
  · decide

end Slim
